import Mathlib

/-!
Verification of the StockDashboard data pipeline against its specification.

The development shallowly embeds the JavaScript core of the repository:
JS numbers are modelled as exact rationals (`ℚ`), with `Math.round`
modelled as floor of `x + 1/2`; JS `null`/`undefined`/missing fields are
modelled with `Option`; JS objects holding rule maps are modelled as
association lists in insertion order.  Each definition is translated from
the source file named in its doc comment.
-/

namespace StockDashboard

/-- JS `Math.round`: rounds half toward positive infinity. -/
def jsRound (q : ℚ) : ℤ := ⌊q + 1/2⌋

/-- JS `Math.round(x * 100) / 100` (round to two decimals). -/
def round2 (q : ℚ) : ℚ := (jsRound (q * 100) : ℚ) / 100

/-- JS truthiness of an optional number: `null`/`undefined` and `0` are falsy. -/
def truthyQ : Option ℚ → Bool
  | none => false
  | some q => q != 0

/-- JS truthiness of an optional string: `null`/`undefined` and `""` are falsy. -/
def truthyS : Option String → Bool
  | none => false
  | some s => s != ""

-- ── Rule-tier scorer (src/server/saulUtils.js) ────────────────────────────────

/-- `TIER_DEFS.tier1` from saulUtils.js. -/
def tier1Defs : List String := ["R_001", "R_001A", "R_003", "R_006"]

/-- `TIER_DEFS.tier2` from saulUtils.js. -/
def tier2Defs : List String := ["R_002", "R_004", "R_005", "R_007", "R_008", "R_009"]

/-- `TIER_DEFS.tier3` from saulUtils.js. -/
def tier3Defs : List String :=
  ["R_010", "R_011", "R_012", "R_013", "R_014", "R_015", "R_016", "R_017"]

/-- `TIER_DEFS.tier4` from saulUtils.js. -/
def tier4Defs : List String :=
  ["R_018", "R_019", "R_020", "R_021", "R_022", "R_023", "R_024"]

/-- The four tier buckets built by the classification loop of
`computeSaulSummary`; each bucket keeps the insertion order of the rule map. -/
structure SaulTiers where
  tier1 : List (String × String)
  tier2 : List (String × String)
  tier3 : List (String × String)
  tier4 : List (String × String)
deriving DecidableEq, Repr

/-- The classification loop of `computeSaulSummary` (saulUtils.js lines 25-31):
each entry goes to the first tier whose membership list contains its rule id,
and unrecognized rule ids are dropped. -/
def classifyTiers : List (String × String) → SaulTiers
  | [] => ⟨[], [], [], []⟩
  | e :: rest =>
    let t := classifyTiers rest
    if e.1 ∈ tier1Defs then ⟨e :: t.tier1, t.tier2, t.tier3, t.tier4⟩
    else if e.1 ∈ tier2Defs then ⟨t.tier1, e :: t.tier2, t.tier3, t.tier4⟩
    else if e.1 ∈ tier3Defs then ⟨t.tier1, t.tier2, e :: t.tier3, t.tier4⟩
    else if e.1 ∈ tier4Defs then ⟨t.tier1, t.tier2, t.tier3, e :: t.tier4⟩
    else t

/-- `countStatus` from saulUtils.js: how many entries of a tier have one of the
given statuses. -/
def countStatus (tier : List (String × String)) (statuses : List String) : ℕ :=
  (tier.filter (fun e => e.2 ∈ statuses)).length

/-- `hasStatus` from saulUtils.js: whether some entry of a tier has one of the
given statuses. -/
def hasStatus (tier : List (String × String)) (statuses : List String) : Bool :=
  tier.any (fun e => decide (e.2 ∈ statuses))

/-- The summary object returned by `computeSaulSummary`. -/
structure SaulSummary where
  tiers : SaulTiers
  score : ℤ
  conviction : String
  baseScore : ℤ
  tier2Bonus : ℤ
  warningPenalty : ℤ
  tier1Count : ℕ
  tier2Passes : ℕ
  tier2Applicable : ℕ
  tier3Passes : ℕ
  tier4Warnings : ℕ
deriving DecidableEq, Repr

/-- `baseScore` of `computeSaulSummary` (saulUtils.js lines 39-49). -/
def saulBaseScore (tiers : SaulTiers) : ℤ :=
  if tiers.tier1.length = 0 then 0
  else if hasStatus tiers.tier1 ["FAIL", "DISQUALIFIED", "DISQ"] then 0
  else if hasStatus tiers.tier1 ["CAUTION", "WARNING"] then 50
  else 70

/-- `tier2Applicable` of `computeSaulSummary` (saulUtils.js lines 52-53). -/
def saulTier2Applicable (tiers : SaulTiers) : ℕ :=
  tiers.tier2.length - countStatus tiers.tier2 ["N/A", "INSUFFICIENT_DATA", "UNCLEAR"]

/-- `tier2Bonus` of `computeSaulSummary` (saulUtils.js lines 54-57). -/
def saulTier2Bonus (tiers : SaulTiers) : ℤ :=
  if 0 < saulTier2Applicable tiers then
    jsRound ((countStatus tiers.tier2 ["PASS"] : ℚ) / saulTier2Applicable tiers * 25)
  else 0

/-- `warningPenalty` of `computeSaulSummary` (saulUtils.js lines 60-61). -/
def saulWarningPenalty (tiers : SaulTiers) : ℤ :=
  min (countStatus tiers.tier4 ["WARNING", "CAUTION"] * 2 : ℤ) 10

/-- `score` of `computeSaulSummary` (saulUtils.js line 64). -/
def saulScore (tiers : SaulTiers) : ℤ :=
  max 0 (min 100 (saulBaseScore tiers + saulTier2Bonus tiers - saulWarningPenalty tiers))

/-- `conviction` of `computeSaulSummary` (saulUtils.js lines 67-71). -/
def saulConviction (tiers : SaulTiers) : String :=
  if 5 ≤ countStatus tiers.tier3 ["PASS"] ∧
      countStatus tiers.tier4 ["WARNING", "CAUTION"] ≤ 1 then "High"
  else if 3 ≤ countStatus tiers.tier3 ["PASS"] ∧
      countStatus tiers.tier4 ["WARNING", "CAUTION"] ≤ 3 then "Medium"
  else "Low"

/-- `computeSaulSummary` from src/server/saulUtils.js.  The input models the
JS rule map: `none` is a null map, and the association list keeps the object's
insertion order.  A null or empty map yields `none`. -/
def computeSaulSummary : Option (List (String × String)) → Option SaulSummary
  | none => none
  | some rules =>
    if rules.length = 0 then none else
    let tiers := classifyTiers rules
    some ⟨tiers, saulScore tiers, saulConviction tiers, saulBaseScore tiers,
      saulTier2Bonus tiers, saulWarningPenalty tiers, tiers.tier1.length,
      countStatus tiers.tier2 ["PASS"], saulTier2Applicable tiers,
      countStatus tiers.tier3 ["PASS"], countStatus tiers.tier4 ["WARNING", "CAUTION"]⟩

-- ── Spec-side restatement of the scoring formula (for claim C1) ───────────────

/-- Spec side: the Tier-i sub-map obtained from the fixed membership list. -/
def specTier (defs : List String) (rules : List (String × String)) :
    List (String × String) :=
  rules.filter (fun e => decide (e.1 ∈ defs))

/-- Spec side: base is 0 when Tier 1 is empty or some Tier-1 status is
FAIL/DISQUALIFIED/DISQ, 50 when some Tier-1 status is CAUTION/WARNING (and
none is FAIL), and 70 otherwise. -/
def specBase (rules : List (String × String)) : ℤ :=
  if specTier tier1Defs rules = [] ∨
      (specTier tier1Defs rules).any
        (fun e => decide (e.2 ∈ ["FAIL", "DISQUALIFIED", "DISQ"])) then 0
  else if (specTier tier1Defs rules).any
      (fun e => decide (e.2 ∈ ["CAUTION", "WARNING"])) then 50
  else 70

/-- Spec side: applicable Tier-2 count, `|Tier 2| − count(N/A, INSUFFICIENT_DATA,
UNCLEAR)`. -/
def specApplicable (rules : List (String × String)) : ℕ :=
  (specTier tier2Defs rules).length -
    ((specTier tier2Defs rules).filter
      (fun e => decide (e.2 ∈ ["N/A", "INSUFFICIENT_DATA", "UNCLEAR"]))).length

/-- Spec side: bonus is `round(25 × passes / applicable)` when applicable > 0,
else 0. -/
def specBonus (rules : List (String × String)) : ℤ :=
  if 0 < specApplicable rules then
    jsRound (25 * (((specTier tier2Defs rules).filter
      (fun e => e.2 = "PASS")).length : ℚ) / specApplicable rules)
  else 0

/-- Spec side: penalty is `min(10, 2 × count of Tier-4 WARNING/CAUTION)`. -/
def specPenalty (rules : List (String × String)) : ℤ :=
  min 10 (2 * (((specTier tier4Defs rules).filter
    (fun e => decide (e.2 ∈ ["WARNING", "CAUTION"]))).length : ℤ))

/-- Spec side: final score `clamp(base + bonus − penalty, 0, 100)`. -/
def specScore (rules : List (String × String)) : ℤ :=
  max 0 (min 100 (specBase rules + specBonus rules - specPenalty rules))

/-- Spec side: conviction is High iff Tier-3 PASS ≥ 5 and Tier-4 warnings ≤ 1,
else Medium iff Tier-3 PASS ≥ 3 and Tier-4 warnings ≤ 3, else Low. -/
def specConviction (rules : List (String × String)) : String :=
  if 5 ≤ ((specTier tier3Defs rules).filter (fun e => e.2 = "PASS")).length ∧
      ((specTier tier4Defs rules).filter
        (fun e => decide (e.2 ∈ ["WARNING", "CAUTION"]))).length ≤ 1 then "High"
  else if 3 ≤ ((specTier tier3Defs rules).filter (fun e => e.2 = "PASS")).length ∧
      ((specTier tier4Defs rules).filter
        (fun e => decide (e.2 ∈ ["WARNING", "CAUTION"]))).length ≤ 3 then "Medium"
  else "Low"

-- ── Tier classification agrees with the membership filters ────────────────────

lemma mem_tier2_not_tier1 (s : String) (h : s ∈ tier2Defs) : s ∉ tier1Defs := by
  fin_cases h <;> decide

lemma mem_tier3_not_tier12 (s : String) (h : s ∈ tier3Defs) :
    s ∉ tier1Defs ∧ s ∉ tier2Defs := by
  fin_cases h <;> exact ⟨by decide, by decide⟩

lemma mem_tier4_not_tier123 (s : String) (h : s ∈ tier4Defs) :
    s ∉ tier1Defs ∧ s ∉ tier2Defs ∧ s ∉ tier3Defs := by
  fin_cases h <;> exact ⟨by decide, by decide, by decide⟩

lemma classifyTiers_eq_filters (rules : List (String × String)) :
    classifyTiers rules =
      ⟨specTier tier1Defs rules, specTier tier2Defs rules,
       specTier tier3Defs rules, specTier tier4Defs rules⟩ := by
  induction rules with
  | nil => rfl
  | cons e rest ih =>
    simp only [classifyTiers, ih, specTier, List.filter_cons]
    by_cases h1 : e.1 ∈ tier1Defs
    · have h2 : e.1 ∉ tier2Defs := fun h => mem_tier2_not_tier1 _ h h1
      have h3 : e.1 ∉ tier3Defs := fun h => (mem_tier3_not_tier12 _ h).1 h1
      have h4 : e.1 ∉ tier4Defs := fun h => (mem_tier4_not_tier123 _ h).1 h1
      simp [h1, h2, h3, h4, specTier]
    · by_cases h2 : e.1 ∈ tier2Defs
      · have h3 : e.1 ∉ tier3Defs := fun h => (mem_tier3_not_tier12 _ h).2 h2
        have h4 : e.1 ∉ tier4Defs := fun h => (mem_tier4_not_tier123 _ h).2.1 h2
        simp [h1, h2, h3, h4, specTier]
      · by_cases h3 : e.1 ∈ tier3Defs
        · have h4 : e.1 ∉ tier4Defs := fun h => (mem_tier4_not_tier123 _ h).2.2 h3
          simp [h1, h2, h3, h4, specTier]
        · by_cases h4 : e.1 ∈ tier4Defs
          · simp [h1, h2, h3, h4, specTier]
          · simp [h1, h2, h3, h4, specTier]

lemma countStatus_singleton (t : List (String × String)) (s : String) :
    countStatus t [s] = (t.filter (fun e => e.2 = s)).length := by
  unfold countStatus
  congr 1
  apply List.filter_congr
  intro x _
  simp

lemma saulBaseScore_eq_specBase (rules : List (String × String)) :
    saulBaseScore (classifyTiers rules) = specBase rules := by
  rw [classifyTiers_eq_filters]
  unfold saulBaseScore specBase hasStatus
  dsimp only
  by_cases hnil : specTier tier1Defs rules = []
  · rw [if_pos (by simp [hnil]), if_pos (Or.inl hnil)]
  · have hlen : ¬ (specTier tier1Defs rules).length = 0 := by
      simpa [List.length_eq_zero] using hnil
    by_cases hfail :
        (specTier tier1Defs rules).any
          (fun e => decide (e.2 ∈ ["FAIL", "DISQUALIFIED", "DISQ"])) = true
    · rw [if_neg hlen, if_pos hfail, if_pos (Or.inr hfail)]
    · have hor : ¬(specTier tier1Defs rules = [] ∨
          (specTier tier1Defs rules).any
            (fun e => decide (e.2 ∈ ["FAIL", "DISQUALIFIED", "DISQ"])) = true) :=
        fun h => h.elim hnil hfail
      rw [if_neg hlen, if_neg hfail, if_neg hor]

lemma saulTier2Applicable_eq_specApplicable (rules : List (String × String)) :
    saulTier2Applicable (classifyTiers rules) = specApplicable rules := by
  rw [classifyTiers_eq_filters]
  rfl

lemma saulTier2Bonus_eq_specBonus (rules : List (String × String)) :
    saulTier2Bonus (classifyTiers rules) = specBonus rules := by
  unfold saulTier2Bonus specBonus
  rw [saulTier2Applicable_eq_specApplicable, classifyTiers_eq_filters]
  dsimp only
  rw [countStatus_singleton]
  by_cases h : 0 < specApplicable rules
  · rw [if_pos h, if_pos h]
    congr 1
    ring
  · rw [if_neg h, if_neg h]

lemma saulWarningPenalty_eq_specPenalty (rules : List (String × String)) :
    saulWarningPenalty (classifyTiers rules) = specPenalty rules := by
  unfold saulWarningPenalty specPenalty countStatus
  rw [classifyTiers_eq_filters]
  dsimp only
  rw [min_comm]
  congr 1
  ring

lemma saulScore_eq_specScore (rules : List (String × String)) :
    saulScore (classifyTiers rules) = specScore rules := by
  unfold saulScore specScore
  rw [saulBaseScore_eq_specBase, saulTier2Bonus_eq_specBonus,
    saulWarningPenalty_eq_specPenalty]

lemma saulConviction_eq_specConviction (rules : List (String × String)) :
    saulConviction (classifyTiers rules) = specConviction rules := by
  unfold saulConviction specConviction
  rw [classifyTiers_eq_filters]
  dsimp only
  rw [countStatus_singleton]
  unfold countStatus
  rfl

/-- Claim C1: for every non-empty rule map, `computeSaulSummary` returns a
summary whose score equals `clamp(base + bonus − penalty, 0, 100)` with base
0/50/70 from Tier-1 statuses, bonus `round(25 × passes/applicable)` over
Tier 2, penalty `min(10, 2 × Tier-4 warnings)`, and whose conviction is
High/Medium/Low from Tier-3 PASS and Tier-4 warning counts; tiers come from
the fixed membership lists with unrecognized ids dropped, and a null or empty
rule map yields null. -/
theorem saul_summary_matches_spec (rules : List (String × String))
    (hne : rules ≠ []) :
    (computeSaulSummary (some rules)).map SaulSummary.score =
      some (specScore rules) ∧
    (computeSaulSummary (some rules)).map SaulSummary.conviction =
      some (specConviction rules) ∧
    computeSaulSummary none = none ∧
    computeSaulSummary (some []) = none := by
  have hlen : ¬ rules.length = 0 := by simpa [List.length_eq_zero] using hne
  refine ⟨?_, ?_, rfl, rfl⟩
  · simp [computeSaulSummary, hlen, saulScore_eq_specScore]
  · simp [computeSaulSummary, hlen, saulConviction_eq_specConviction]

/-- Witness for `saul_summary_matches_spec` at the rule map `{R_001: PASS}`. -/
theorem saul_summary_matches_spec_witness :
    (computeSaulSummary (some [("R_001", "PASS")])).map SaulSummary.score =
      some (specScore [("R_001", "PASS")]) ∧
    (computeSaulSummary (some [("R_001", "PASS")])).map SaulSummary.conviction =
      some (specConviction [("R_001", "PASS")]) ∧
    computeSaulSummary none = none ∧
    computeSaulSummary (some []) = none :=
  saul_summary_matches_spec [("R_001", "PASS")] (by decide)

/-- Rule map with a Tier-1 FAIL among otherwise-PASS Tier-1 entries, plus a
Tier-2 PASS. -/
def c2Rules : List (String × String) :=
  [("R_001", "FAIL"), ("R_003", "PASS"), ("R_002", "PASS")]

/-- Claim C2 is false as stated: with a Tier-1 FAIL among otherwise-PASS
Tier-1 entries, a Tier-2 PASS still contributes its bonus, so the score is
25, not 0. -/
theorem saul_tier1_fail_score_counterexample :
    (computeSaulSummary (some c2Rules)).map SaulSummary.score = some 25 ∧
    (25 : ℤ) ≠ 0 := by
  have h1 : classifyTiers c2Rules =
      ⟨[("R_001", "FAIL"), ("R_003", "PASS")], [("R_002", "PASS")], [], []⟩ := by
    decide
  have hlen : ¬ c2Rules.length = 0 := by decide
  refine ⟨?_, by decide⟩
  simp only [computeSaulSummary, if_neg hlen, h1, Option.map_some']
  simp [saulScore, saulBaseScore, saulTier2Bonus, saulTier2Applicable,
    saulWarningPenalty, countStatus, hasStatus]
  norm_num [jsRound]

/-- Claim C2 (amended): for every rule map whose Tier-1 entries contain at
least one FAIL among otherwise-PASS Tier-1 entries, the base score is 0 and
the final score is `clamp(tier-2 bonus − tier-4 penalty, 0, 100)` — which is 0
only when the bonus does not exceed the penalty, not unconditionally. -/
theorem saul_tier1_fail_base_zero (rules : List (String × String))
    (hfail : ∃ e ∈ rules, e.1 ∈ tier1Defs ∧ e.2 = "FAIL")
    (_hpass : ∀ e ∈ rules, e.1 ∈ tier1Defs → e.2 = "FAIL" ∨ e.2 = "PASS") :
    (computeSaulSummary (some rules)).map SaulSummary.baseScore = some 0 ∧
    (computeSaulSummary (some rules)).map SaulSummary.score =
      some (max 0 (min 100 (saulTier2Bonus (classifyTiers rules) -
        saulWarningPenalty (classifyTiers rules)))) := by
  obtain ⟨e, hmem, htier, hstat⟩ := hfail
  have hne : rules ≠ [] := by
    intro h
    rw [h] at hmem
    exact absurd hmem (List.not_mem_nil e)
  have hlen : ¬ rules.length = 0 := by simpa [List.length_eq_zero] using hne
  have hbase : saulBaseScore (classifyTiers rules) = 0 := by
    rw [classifyTiers_eq_filters]
    unfold saulBaseScore hasStatus
    have hany : (specTier tier1Defs rules).any
        (fun e => decide (e.2 ∈ ["FAIL", "DISQUALIFIED", "DISQ"])) = true := by
      rw [List.any_eq_true]
      refine ⟨e, ?_, ?_⟩
      · unfold specTier
        rw [List.mem_filter]
        exact ⟨hmem, by simp [htier]⟩
      · simp [hstat]
    by_cases hnil : (specTier tier1Defs rules).length = 0
    · rw [if_pos hnil]
    · rw [if_neg hnil, if_pos hany]
  constructor
  · simp [computeSaulSummary, hlen, hbase]
  · simp [computeSaulSummary, hlen]
    unfold saulScore
    rw [hbase, zero_add]

/-- Witness for `saul_tier1_fail_base_zero` at the concrete rule map
`{R_001: FAIL, R_003: PASS, R_002: PASS}`. -/
theorem saul_tier1_fail_base_zero_witness :
    (computeSaulSummary (some c2Rules)).map SaulSummary.baseScore = some 0 ∧
    (computeSaulSummary (some c2Rules)).map SaulSummary.score =
      some (max 0 (min 100 (saulTier2Bonus (classifyTiers c2Rules) -
        saulWarningPenalty (classifyTiers c2Rules)))) :=
  saul_tier1_fail_base_zero c2Rules (by decide) (by decide)

-- ── Numeric coercion (src/unnamed/part_007, normalizer.js helpers) ────────────

/-- A JS number: NaN, signed Infinity, or a finite value (modelled exactly as a
rational; IEEE-754 rounding is not modelled). -/
inductive JsNumber where
  | nan : JsNumber
  | inf : Bool → JsNumber
  | num : ℚ → JsNumber
deriving DecidableEq, Repr

/-- A JS value as consumed by `safeNum`: null, undefined, a number or a
string. -/
inductive JsValue where
  | jnull : JsValue
  | jundef : JsValue
  | jnum : JsNumber → JsValue
  | jstr : String → JsValue
deriving DecidableEq, Repr

/-- The JS `\s` character class (ECMAScript WhiteSpace and LineTerminator). -/
def isJsWhitespace (c : Char) : Bool :=
  c = ' ' ∨ c = '\t' ∨ c = '\n' ∨ c = '\r' ∨ c.toNat = 0x0B ∨ c.toNat = 0x0C ∨
  c.toNat = 0xA0 ∨ c.toNat = 0x1680 ∨ (0x2000 ≤ c.toNat ∧ c.toNat ≤ 0x200A) ∨
  c.toNat = 0x2028 ∨ c.toNat = 0x2029 ∨ c.toNat = 0x202F ∨ c.toNat = 0x205F ∨
  c.toNat = 0x3000 ∨ c.toNat = 0xFEFF

/-- Numeric value of a decimal digit character. -/
def digitVal (c : Char) : ℕ := c.toNat - '0'.toNat

/-- Numeric value of a string of decimal digits. -/
def digitsVal (ds : List Char) : ℕ := ds.foldl (fun acc c => acc * 10 + digitVal c) 0

/-- The optional exponent part recognized by JS `parseFloat` (`e`/`E`, optional
sign, digits; ignored when no digit follows). -/
def parseExponent (s : List Char) : ℤ :=
  match s with
  | c :: rest =>
    if c = 'e' ∨ c = 'E' then
      match rest with
      | '+' :: t => if (t.takeWhile Char.isDigit) = [] then 0
          else (digitsVal (t.takeWhile Char.isDigit) : ℤ)
      | '-' :: t => if (t.takeWhile Char.isDigit) = [] then 0
          else -(digitsVal (t.takeWhile Char.isDigit) : ℤ)
      | _ => if (rest.takeWhile Char.isDigit) = [] then 0
          else (digitsVal (rest.takeWhile Char.isDigit) : ℤ)
    else 0
  | [] => 0

/-- The outcome of the `parseFloat` scan, before any rational arithmetic:
NaN/Infinity flags, sign, integer-part and fraction-part digit values, the
fraction length, and the exponent. -/
structure FloatParse where
  isNan : Bool
  isInf : Bool
  neg : Bool
  ipv : ℕ
  fpv : ℕ
  fplen : ℕ
  ex : ℤ
deriving DecidableEq, Repr

/-- The scanning phase of JS `parseFloat`: skips leading whitespace, reads an
optional sign, the literal `Infinity`, or a decimal significand with optional
fraction and exponent; NaN when no digit is found. -/
def parseFloatCore (input : List Char) : FloatParse :=
  match (match input.dropWhile isJsWhitespace with
         | '+' :: t => (false, t)
         | '-' :: t => (true, t)
         | s0 => (false, s0)) with
  | (neg, s1) =>
    if s1.take 8 = "Infinity".data then ⟨false, true, neg, 0, 0, 0, 0⟩
    else
      match s1.span Char.isDigit with
      | (ip, s2) =>
        match (match s2 with
               | '.' :: t => (t.takeWhile Char.isDigit, t.dropWhile Char.isDigit)
               | _ => ([], s2)) with
        | (fp, s3) =>
          if ip = [] ∧ fp = [] then ⟨true, false, neg, 0, 0, 0, 0⟩
          else ⟨false, false, neg, digitsVal ip, digitsVal fp, fp.length,
            parseExponent s3⟩

/-- The numeric value of a `parseFloat` scan, as an exact rational (IEEE-754
rounding is not modelled). -/
def floatValue (p : FloatParse) : JsNumber :=
  if p.isNan then JsNumber.nan
  else if p.isInf then JsNumber.inf p.neg
  else JsNumber.num ((if p.neg then (-1 : ℚ) else 1) *
    ((p.ipv : ℚ) + (p.fpv : ℚ) / 10 ^ p.fplen) * 10 ^ p.ex)

/-- JS `parseFloat` on a character list. -/
def parseFloatJs (input : List Char) : JsNumber := floatValue (parseFloatCore input)

/-- The cleaning step of `safeNum`: `v.replace(/[$,\s]/g, '')`. -/
def cleanJs (s : List Char) : List Char :=
  s.filter (fun c => ¬(c = '$' ∨ c = ',' ∨ isJsWhitespace c))

/-- A character allowed in the mantissa of the suffix pattern (`[\d.]`). -/
def isMantissaChar (c : Char) : Bool := c.isDigit ∨ c = '.'

/-- Whether a string matches `[+-]?[\d.]+` in full. -/
def mantissaOk : List Char → Bool
  | [] => false
  | c :: rest =>
    if c = '+' ∨ c = '-' then rest ≠ [] ∧ rest.all isMantissaChar
    else (c :: rest).all isMantissaChar

/-- The suffix regex `^([+-]?[\d.]+)\s*([BMKbmk])$` of `safeNum`, applied to the
already-cleaned (whitespace-free) string: splits off a trailing B/M/K suffix
(upper-cased) when the rest matches the mantissa pattern. -/
def suffixSplit (s : List Char) : Option (List Char × Char) :=
  match s.getLast? with
  | some c =>
    if (c.toUpper = 'B' ∨ c.toUpper = 'M' ∨ c.toUpper = 'K') ∧
        mantissaOk s.dropLast then
      some (s.dropLast, c.toUpper)
    else none
  | none => none

/-- Multiplication of a JS number by a positive rational constant. -/
def jsMul (n : JsNumber) (k : ℚ) : JsNumber :=
  match n with
  | .nan => .nan
  | .inf b => .inf b
  | .num q => .num (q * k)

/-- Division of a JS number by a positive rational constant. -/
def jsDiv (n : JsNumber) (k : ℚ) : JsNumber :=
  match n with
  | .nan => .nan
  | .inf b => .inf b
  | .num q => .num (q / k)

/-- `Math.abs(n) > t` on a JS number (false for NaN, true for ±Infinity). -/
def jsAbsGtThreshold (n : JsNumber) (t : ℚ) : Bool :=
  match n with
  | .nan => false
  | .inf _ => true
  | .num q => t < |q|

/-- The string branch of `safeNum` (normalizer.js lines 17-33). -/
def safeNumStr (s : String) : Option JsNumber :=
  if s = "N/A" ∨ s = "N/a" ∨ s = "" then none
  else
    match suffixSplit (cleanJs s.data) with
    | some (m, suf) =>
      if suf = 'B' then some (jsMul (parseFloatJs m) 1000)
      else if suf = 'M' then some (parseFloatJs m)
      else some (jsDiv (parseFloatJs m) 1000)
    | none =>
      match parseFloatJs (cleanJs s.data) with
      | .nan => none
      | n => some n

/-- `safeNum` from src/unnamed/part_007 (normalizer.js): null for
null/undefined/the literal null tokens, numbers passed through, strings
cleaned of `$`, commas and whitespace, then parsed with B/M/K suffix handling
(B ↦ ×1000, M ↦ unchanged, K ↦ ÷1000, units of millions); a non-NaN parse is
returned and NaN yields null. -/
def safeNum : JsValue → Option JsNumber
  | .jnull => none
  | .jundef => none
  | .jnum n => some n
  | .jstr s => safeNumStr s

/-- `toMillions` from src/unnamed/part_007 (normalizer.js): coerces via
`safeNum`, then divides by 1,000,000 when the absolute value exceeds 100,000
(raw-dollar heuristic). -/
def toMillions (v : JsValue) : Option JsNumber :=
  match safeNum v with
  | none => none
  | some n =>
    if jsAbsGtThreshold n 100000 then some (jsDiv n 1000000) else some n

lemma notToken_append_B (s : String) :
    ¬(s ++ "B" = "N/A" ∨ s ++ "B" = "N/a" ∨ s ++ "B" = "") := by
  intro h
  rcases h with h | h | h <;>
    simpa [String.data_append] using congrArg (fun t : String => t.data.getLast?) h

lemma notToken_append_M (s : String) :
    ¬(s ++ "M" = "N/A" ∨ s ++ "M" = "N/a" ∨ s ++ "M" = "") := by
  intro h
  rcases h with h | h | h <;>
    simpa [String.data_append] using congrArg (fun t : String => t.data.getLast?) h

lemma notToken_append_K (s : String) :
    ¬(s ++ "K" = "N/A" ∨ s ++ "K" = "N/a" ∨ s ++ "K" = "") := by
  intro h
  rcases h with h | h | h <;>
    simpa [String.data_append] using congrArg (fun t : String => t.data.getLast?) h

lemma safeNumStr_suffix_B (s : String) (hm : mantissaOk s.data = true)
    (hclean : cleanJs s.data = s.data) :
    safeNumStr (s ++ "B") = some (jsMul (parseFloatJs s.data) 1000) := by
  unfold safeNumStr
  rw [if_neg (notToken_append_B s)]
  have hcl : cleanJs ((s ++ "B").data) = s.data ++ ['B'] := by
    rw [String.data_append]
    unfold cleanJs at hclean ⊢
    rw [List.filter_append, hclean]
    congr 1
  rw [hcl]
  have hss : suffixSplit (s.data ++ ['B']) = some (s.data, 'B') := by
    unfold suffixSplit
    simp only [List.getLast?_concat, List.dropLast_concat]
    rw [if_pos ⟨Or.inl (by decide), hm⟩]
    rw [show 'B'.toUpper = 'B' from by decide]
  rw [hss]
  simp

lemma safeNumStr_suffix_M (s : String) (hm : mantissaOk s.data = true)
    (hclean : cleanJs s.data = s.data) :
    safeNumStr (s ++ "M") = some (parseFloatJs s.data) := by
  unfold safeNumStr
  rw [if_neg (notToken_append_M s)]
  have hcl : cleanJs ((s ++ "M").data) = s.data ++ ['M'] := by
    rw [String.data_append]
    unfold cleanJs at hclean ⊢
    rw [List.filter_append, hclean]
    congr 1
  rw [hcl]
  have hss : suffixSplit (s.data ++ ['M']) = some (s.data, 'M') := by
    unfold suffixSplit
    simp only [List.getLast?_concat, List.dropLast_concat]
    rw [if_pos ⟨Or.inr (Or.inl (by decide)), hm⟩]
    rw [show 'M'.toUpper = 'M' from by decide]
  rw [hss]
  simp

lemma safeNumStr_suffix_K (s : String) (hm : mantissaOk s.data = true)
    (hclean : cleanJs s.data = s.data) :
    safeNumStr (s ++ "K") = some (jsDiv (parseFloatJs s.data) 1000) := by
  unfold safeNumStr
  rw [if_neg (notToken_append_K s)]
  have hcl : cleanJs ((s ++ "K").data) = s.data ++ ['K'] := by
    rw [String.data_append]
    unfold cleanJs at hclean ⊢
    rw [List.filter_append, hclean]
    congr 1
  rw [hcl]
  have hss : suffixSplit (s.data ++ ['K']) = some (s.data, 'K') := by
    unfold suffixSplit
    simp only [List.getLast?_concat, List.dropLast_concat]
    rw [if_pos ⟨Or.inr (Or.inr (by decide)), hm⟩]
    rw [show 'K'.toUpper = 'K' from by decide]
  rw [hss]
  simp

lemma toMillions_small (v : JsValue) (q : ℚ)
    (h : safeNum v = some (JsNumber.num q)) (hle : |q| ≤ 100000) :
    toMillions v = some (JsNumber.num q) := by
  unfold toMillions
  rw [h]
  dsimp only
  have hf : ¬(jsAbsGtThreshold (JsNumber.num q) 100000 = true) := by
    simp only [jsAbsGtThreshold, decide_eq_true_eq]
    exact not_lt.mpr hle
  rw [if_neg hf]

lemma toMillions_large (v : JsValue) (q : ℚ)
    (h : safeNum v = some (JsNumber.num q)) (hgt : 100000 < |q|) :
    toMillions v = some (JsNumber.num (q / 1000000)) := by
  unfold toMillions
  rw [h]
  dsimp only
  have hf : jsAbsGtThreshold (JsNumber.num q) 100000 = true := by
    simp only [jsAbsGtThreshold, decide_eq_true_eq]
    exact hgt
  rw [if_pos hf]
  rfl

/-- Claim C3 (amended): for a numeral string `s` of value `q`, coercion maps
`s ++ "B"` to `q × 1000`, `s ++ "M"` to `q`, and `s ++ "K"` to `q / 1000` —
but only while the suffix-scaled magnitude stays within 100,000; beyond that
threshold `toMillions` further divides by 1,000,000 (raw-dollar heuristic), so
the claimed identities do not hold for every `n`. -/
theorem coerceToMillions_suffix_semantics (s : String) (q : ℚ)
    (hm : mantissaOk s.data = true) (hclean : cleanJs s.data = s.data)
    (hq : parseFloatJs s.data = JsNumber.num q) :
    (|q * 1000| ≤ 100000 →
      toMillions (JsValue.jstr (s ++ "B")) = some (JsNumber.num (q * 1000))) ∧
    (|q| ≤ 100000 →
      toMillions (JsValue.jstr (s ++ "M")) = some (JsNumber.num q)) ∧
    (|q / 1000| ≤ 100000 →
      toMillions (JsValue.jstr (s ++ "K")) = some (JsNumber.num (q / 1000))) := by
  refine ⟨fun hB => ?_, fun hM => ?_, fun hK => ?_⟩
  · have h1 : safeNum (JsValue.jstr (s ++ "B")) = some (JsNumber.num (q * 1000)) := by
      show safeNumStr (s ++ "B") = _
      rw [safeNumStr_suffix_B s hm hclean, hq]
      rfl
    exact toMillions_small _ _ h1 hB
  · have h1 : safeNum (JsValue.jstr (s ++ "M")) = some (JsNumber.num q) := by
      show safeNumStr (s ++ "M") = _
      rw [safeNumStr_suffix_M s hm hclean, hq]
    exact toMillions_small _ _ h1 hM
  · have h1 : safeNum (JsValue.jstr (s ++ "K")) = some (JsNumber.num (q / 1000)) := by
      show safeNumStr (s ++ "K") = _
      rw [safeNumStr_suffix_K s hm hclean, hq]
      rfl
    exact toMillions_small _ _ h1 hK

/-- Witness for `coerceToMillions_suffix_semantics` at the numeral `"3"`. -/
theorem coerceToMillions_suffix_semantics_witness :
    (|(3 : ℚ) * 1000| ≤ 100000 →
      toMillions (JsValue.jstr ("3" ++ "B")) = some (JsNumber.num ((3 : ℚ) * 1000))) ∧
    (|(3 : ℚ)| ≤ 100000 →
      toMillions (JsValue.jstr ("3" ++ "M")) = some (JsNumber.num (3 : ℚ))) ∧
    (|(3 : ℚ) / 1000| ≤ 100000 →
      toMillions (JsValue.jstr ("3" ++ "K")) = some (JsNumber.num ((3 : ℚ) / 1000))) :=
  coerceToMillions_suffix_semantics "3" 3 (by decide) (by decide)
    (by
      rw [parseFloatJs, show parseFloatCore "3".data = ⟨false, false, false, 3, 0, 0, 0⟩
        from by decide]
      norm_num [floatValue])

/-- Claim C3 is false as stated: `toMillions "200B"` is 0.2, not 200 × 1000 —
the suffix value 200,000 exceeds the 100,000 raw-dollar threshold and is
divided by 1,000,000. -/
theorem coerceToMillions_B_counterexample :
    toMillions (JsValue.jstr "200B") = some (JsNumber.num (1/5)) ∧
    (1/5 : ℚ) ≠ 200 * 1000 := by
  have hv : parseFloatJs ['2', '0', '0'] = JsNumber.num 200 := by
    rw [parseFloatJs, show parseFloatCore ['2', '0', '0'] = ⟨false, false, false, 200, 0, 0, 0⟩
      from by decide]
    norm_num [floatValue]
  have h1 : safeNum (JsValue.jstr "200B") = some (JsNumber.num 200000) := by
    show safeNumStr "200B" = _
    unfold safeNumStr
    rw [if_neg (by decide)]
    rw [show suffixSplit (cleanJs "200B".data) = some (['2', '0', '0'], 'B') from by decide]
    simp [hv, jsMul]
    norm_num
  constructor
  · rw [toMillions_large _ _ h1 (by norm_num)]
    norm_num
  · norm_num

/-- Claim C8 (amended): `safeNum` returns null for null, undefined, the empty
string and the literal tokens N/A and N/a; a cleaned string with no B/M/K
suffix whose residue does not parse returns null; but a cleaned string that
matches the suffix pattern with a mantissa that does not parse (digit-free,
e.g. ".B") returns NaN — a number — rather than null. -/
theorem safeNum_null_tokens_and_nonnumeric :
    safeNum JsValue.jnull = none ∧
    safeNum JsValue.jundef = none ∧
    safeNum (JsValue.jstr "") = none ∧
    safeNum (JsValue.jstr "N/A") = none ∧
    safeNum (JsValue.jstr "N/a") = none ∧
    (∀ s : String, suffixSplit (cleanJs s.data) = none →
      parseFloatJs (cleanJs s.data) = JsNumber.nan →
      safeNum (JsValue.jstr s) = none) ∧
    (∀ (s : String) (m : List Char) (suf : Char),
      suffixSplit (cleanJs s.data) = some (m, suf) →
      parseFloatJs m = JsNumber.nan →
      safeNum (JsValue.jstr s) = some JsNumber.nan) := by
  refine ⟨rfl, rfl, rfl, rfl, rfl, ?_, ?_⟩
  · intro s h1 h2
    show safeNumStr s = none
    unfold safeNumStr
    by_cases ht : s = "N/A" ∨ s = "N/a" ∨ s = ""
    · rw [if_pos ht]
    · rw [if_neg ht, h1, h2]
  · intro s m suf h1 h2
    show safeNumStr s = some JsNumber.nan
    have ht : ¬(s = "N/A" ∨ s = "N/a" ∨ s = "") := by
      rintro (rfl | rfl | rfl)
      · rw [show suffixSplit (cleanJs "N/A".data) = none from by decide] at h1
        exact Option.noConfusion h1
      · rw [show suffixSplit (cleanJs "N/a".data) = none from by decide] at h1
        exact Option.noConfusion h1
      · rw [show suffixSplit (cleanJs "".data) = none from by decide] at h1
        exact Option.noConfusion h1
    unfold safeNumStr
    rw [if_neg ht, h1]
    dsimp only
    rw [h2]
    by_cases hB : suf = 'B'
    · rw [if_pos hB]
      rfl
    · rw [if_neg hB]
      by_cases hM : suf = 'M'
      · rw [if_pos hM]
      · rw [if_neg hM]
        rfl

/-- Witness for `safeNum_null_tokens_and_nonnumeric` at `"abc"` (no suffix,
unparseable residue) and `".B"` (suffix with digit-free mantissa). -/
theorem safeNum_null_tokens_witness :
    safeNum (JsValue.jstr "abc") = none ∧
    safeNum (JsValue.jstr ".B") = some JsNumber.nan :=
  ⟨safeNum_null_tokens_and_nonnumeric.2.2.2.2.2.1 "abc" (by decide) (by decide),
   safeNum_null_tokens_and_nonnumeric.2.2.2.2.2.2 ".B" ['.'] 'B' (by decide) (by decide)⟩

/-- Claim C8 is false as stated: `".B"` has a non-numeric residue `"."` after
cleaning and suffix stripping, yet `safeNum` returns NaN (a number), not
null. -/
theorem safeNum_nonnumeric_counterexample :
    safeNum (JsValue.jstr ".B") = some JsNumber.nan ∧
    parseFloatJs ['.'] = JsNumber.nan ∧
    some JsNumber.nan ≠ (none : Option JsNumber) :=
  ⟨by decide, by decide, by decide⟩

-- ── Company records, derived-metrics calculator (calculator.js, served from
-- src/public/js/components/companySelector.js) and the live-price overlay
-- (src/server/index.js) ──────────────────────────────────────────────────────

/-- The momentum object returned by `sequentialMomentum`. -/
structure Momentum where
  currentQoq : ℚ
  priorQoq : ℚ
  delta : ℚ
  trend : String
deriving DecidableEq, Repr

/-- A P/E compression block (normalizer pre-computed or calculator built). -/
structure PeCompressionBlock where
  trailingPe : Option ℚ := none
  runRatePe : Option ℚ := none
  forwardPe : Option ℚ := none
  trailingToRunRate : Option ℚ := none
  runRateToForward : Option ℚ := none
  totalCompression : Option ℚ := none
  interpretation : Option String := none
deriving DecidableEq, Repr

/-- One quarterly-history entry of a normalized company record. -/
structure QuarterEntry where
  quarter : String := ""
  calendarQuarter : Option String := none
  quarterEnd : Option String := none
  revenueMil : Option ℚ := none
  revenueYoyPct : Option ℚ := none
  revenueQoqPct : Option ℚ := none
deriving DecidableEq, Repr

/-- The `calculated` block attached by `computeAllMetrics`. -/
structure Calculated where
  ticker : String := ""
  momentum : Option Momentum := none
  gav : Option ℚ := none
  operatingLeverage : Option ℚ := none
  distanceFromHigh : Option ℚ := none
  peCompression : Option PeCompressionBlock := none
deriving DecidableEq, Repr

/-- A normalized company record, restricted to the fields read or written by
the calculator and the live-price overlay. -/
structure Company where
  ticker : String := ""
  price : Option ℚ := none
  priceSource : Option String := none
  marketCapMil : Option ℚ := none
  priceToSales : Option ℚ := none
  trailingPe : Option ℚ := none
  runRatePe : Option ℚ := none
  forwardPe : Option ℚ := none
  normalizedPe : Option ℚ := none
  fiftyTwoWeekHigh : Option ℚ := none
  revenueYoyPct : Option ℚ := none
  revenueRecentMil : Option ℚ := none
  ebitdaMil : Option ℚ := none
  ebitdaYoyPct : Option ℚ := none
  peCompression : Option PeCompressionBlock := none
  quarterlyHistory : List QuarterEntry := []
  calculated : Calculated := {}
deriving DecidableEq, Repr

/-- The QoQ chain of `sequentialMomentum`: take `revenueQoqPct` directly when
present, else back-derive `(curr − prev)/prev × 100` when both revenues are
truthy. -/
def qoqOf (a b : QuarterEntry) : Option ℚ :=
  match a.revenueQoqPct with
  | some c => some c
  | none =>
    match a.revenueMil, b.revenueMil with
    | some ra, some rb =>
      if ra ≠ 0 ∧ rb ≠ 0 then some ((ra - rb) / rb * 100) else none
    | _, _ => none

/-- `sequentialMomentum` from calculator.js (companySelector.js lines
323-358): null under 3 history entries; current/prior QoQ via `qoqOf`; delta
and 2-decimal rounding; trend thresholds ±2 on the unrounded delta. -/
def sequentialMomentum (company : Company) : Option Momentum :=
  match company.quarterlyHistory with
  | h0 :: h1 :: h2 :: _ =>
    match qoqOf h0 h1, qoqOf h1 h2 with
    | some currentQoq, some priorQoq =>
      some ⟨round2 currentQoq, round2 priorQoq, round2 (currentQoq - priorQoq),
        if 2 < currentQoq - priorQoq then "accelerating"
        else if currentQoq - priorQoq < -2 then "decelerating"
        else "stable"⟩
    | _, _ => none
  | _ => none

/-- The JS expression `company.runRatePe || company.trailingPe ||
company.normalizedPe`. -/
def effectivePe (c : Company) : Option ℚ :=
  if truthyQ c.runRatePe then c.runRatePe
  else if truthyQ c.trailingPe then c.trailingPe
  else c.normalizedPe

/-- `growthAdjustedValuation` from calculator.js: effective P/E over YoY
revenue growth, rounded to 2 decimals; null without a truthy P/E or positive
growth. -/
def growthAdjustedValuation (company : Company) : Option ℚ :=
  if truthyQ (effectivePe company) ∧ truthyQ company.revenueYoyPct ∧
      0 < company.revenueYoyPct.getD 0 then
    some (round2 ((effectivePe company).getD 0 / company.revenueYoyPct.getD 0))
  else none

/-- `operatingLeverage` from calculator.js: ΔEBITDA/ΔRevenue with prior-year
values back-derived from YoY percentages. -/
def operatingLeverage (company : Company) : Option ℚ :=
  match company.ebitdaMil, company.revenueRecentMil,
      company.ebitdaYoyPct, company.revenueYoyPct with
  | some currentEBITDA, some currentRevenue, some ebitdaYoY, some revenueYoY =>
    if revenueYoY = 0 ∨ ebitdaYoY = -100 then none
    else if currentRevenue - currentRevenue / (1 + revenueYoY / 100) = 0 then none
    else some (round2 ((currentEBITDA - currentEBITDA / (1 + ebitdaYoY / 100)) /
      (currentRevenue - currentRevenue / (1 + revenueYoY / 100))))
  | _, _, _, _ => none

/-- `distanceFrom52WeekHigh` from calculator.js:
`Math.round(((price − high)/high) × 10000)/100`, null when price or high is
falsy. -/
def distanceFrom52WeekHigh (company : Company) : Option ℚ :=
  if truthyQ company.price ∧ truthyQ company.fiftyTwoWeekHigh then
    some ((jsRound ((company.price.getD 0 - company.fiftyTwoWeekHigh.getD 0) /
      company.fiftyTwoWeekHigh.getD 0 * 10000) : ℚ) / 100)
  else none

/-- `peCompression` from calculator.js: pass the record-level pre-computed
block through when present, else build the three deltas from the P/E
variants. -/
def peCompressionCalc (company : Company) : Option PeCompressionBlock :=
  match company.peCompression with
  | some pc => some pc
  | none =>
    if company.trailingPe = none ∧ company.runRatePe = none ∧
        company.forwardPe = none then none
    else some
      { trailingPe := company.trailingPe
        runRatePe := company.runRatePe
        forwardPe := company.forwardPe
        trailingToRunRate :=
          match company.trailingPe, company.runRatePe with
          | some t, some r => some (round2 (t - r))
          | _, _ => none
        runRateToForward :=
          match company.runRatePe, company.forwardPe with
          | some r, some f => some (round2 (r - f))
          | _, _ => none
        totalCompression :=
          match company.trailingPe, company.forwardPe with
          | some t, some f => some (round2 (t - f))
          | _, _ => none
        interpretation := none }

/-- `computeAllMetrics` from calculator.js. -/
def computeAllMetrics (company : Company) : Calculated :=
  { ticker := company.ticker
    momentum := sequentialMomentum company
    gav := growthAdjustedValuation company
    operatingLeverage := operatingLeverage company
    distanceFromHigh := distanceFrom52WeekHigh company
    peCompression := peCompressionCalc company }

/-- `enrichCompanies` from calculator.js. -/
def enrichCompanies (companies : List Company) : List Company :=
  companies.map (fun company => { company with calculated := computeAllMetrics company })

/-- The P/E rescaling of `overlayLivePrice` (index.js lines 45-50): back-derive
EPS from the report price, recompute at the live price; falsy P/E left as is. -/
def overlayPe (reportPrice livePrice : ℚ) (pe : Option ℚ) : Option ℚ :=
  if truthyQ pe then some (round2 (livePrice / (reportPrice / pe.getD 0))) else pe

/-- The base-field updates of `overlayLivePrice` (index.js lines 35-50): new
price and source, market cap and price-to-sales scaled by the price ratio,
P/E variants re-derived through EPS. -/
def overlayScaledCompany (company : Company) (livePrice : ℚ) : Company :=
  { company with
    price := some livePrice
    priceSource := some "live"
    marketCapMil :=
      if truthyQ company.marketCapMil then
        some (round2 (company.marketCapMil.getD 0 * (livePrice / company.price.getD 0)))
      else none
    priceToSales :=
      if truthyQ company.priceToSales then
        some (round2 (company.priceToSales.getD 0 * (livePrice / company.price.getD 0)))
      else none
    trailingPe := overlayPe (company.price.getD 0) livePrice company.trailingPe
    runRatePe := overlayPe (company.price.getD 0) livePrice company.runRatePe
    forwardPe := overlayPe (company.price.getD 0) livePrice company.forwardPe
    normalizedPe := overlayPe (company.price.getD 0) livePrice company.normalizedPe }

/-- The `calculated` patch of `overlayLivePrice` (index.js lines 52-78): starts
from the previous block and conditionally rewrites distanceFromHigh, gav and
peCompression from the overlaid values. -/
def overlayCalc (company c : Company) (livePrice : ℚ) : Calculated :=
  { company.calculated with
    distanceFromHigh :=
      if truthyQ company.fiftyTwoWeekHigh then
        some (round2 ((livePrice - company.fiftyTwoWeekHigh.getD 0) /
          company.fiftyTwoWeekHigh.getD 0 * 100))
      else company.calculated.distanceFromHigh
    gav :=
      if truthyQ (effectivePe c) ∧ truthyQ company.revenueYoyPct ∧
          0 < company.revenueYoyPct.getD 0 then
        some (round2 ((effectivePe c).getD 0 / company.revenueYoyPct.getD 0))
      else company.calculated.gav
    peCompression :=
      if c.trailingPe ≠ none ∨ c.runRatePe ≠ none ∨ c.forwardPe ≠ none then
        some
          { trailingPe := c.trailingPe
            runRatePe := c.runRatePe
            forwardPe := c.forwardPe
            trailingToRunRate :=
              match c.trailingPe, c.runRatePe with
              | some t, some r => some (round2 (t - r))
              | _, _ => none
            runRateToForward :=
              match c.runRatePe, c.forwardPe with
              | some r, some f => some (round2 (r - f))
              | _, _ => none
            totalCompression :=
              match c.trailingPe, c.forwardPe with
              | some t, some f => some (round2 (t - f))
              | _, _ => none
            interpretation := none }
      else company.calculated.peCompression }

/-- `overlayLivePrice` from src/server/index.js lines 29-80. -/
def overlayLivePrice (company : Company) (livePrice : ℚ) : Company :=
  if ¬ truthyQ company.price ∨ company.price.getD 0 ≤ 0 then
    { company with price := some livePrice, priceSource := some "live" }
  else
    { overlayScaledCompany company livePrice with
      calculated := overlayCalc company (overlayScaledCompany company livePrice) livePrice }

/-- `overlayLivePrices` from src/server/index.js lines 82-89: overlay each
company whose ticker has a truthy live price, otherwise mark
`priceSource = 'report'`. -/
def overlayLivePrices (priceMap : List (String × ℚ)) (companies : List Company) :
    List Company :=
  companies.map (fun company =>
    match priceMap.lookup company.ticker with
    | some livePrice =>
      if livePrice ≠ 0 then overlayLivePrice company livePrice
      else { company with priceSource := some "report" }
    | none => { company with priceSource := some "report" })

/-- Claim C10: a company whose ticker has no entry in the live-price map is
returned with `priceSource = 'report'` and every other field, including the
calculated block, unchanged. -/
theorem overlayLivePrices_no_entry (priceMap : List (String × ℚ))
    (company : Company) (cs : List Company)
    (h : priceMap.lookup company.ticker = none) :
    overlayLivePrices priceMap (company :: cs) =
      { company with priceSource := some "report" } :: overlayLivePrices priceMap cs := by
  unfold overlayLivePrices
  simp only [List.map_cons, h]

/-- Witness for `overlayLivePrices_no_entry`: ticker AAPL, map containing only
MSFT. -/
theorem overlayLivePrices_no_entry_witness :
    overlayLivePrices [("MSFT", (10 : ℚ))] [({ ticker := "AAPL" } : Company)] =
      { ({ ticker := "AAPL" } : Company) with priceSource := some "report" } ::
        overlayLivePrices [("MSFT", (10 : ℚ))] [] :=
  overlayLivePrices_no_entry [("MSFT", (10 : ℚ))] { ticker := "AAPL" } [] (by decide)

/-- Claim C5 (amended): when the record has a usable report price, the
overlay's distanceFromHigh and GAV agree with the calculator re-run on the
overlaid record (whenever their inputs are present there), and momentum and
operating leverage are carried over unchanged; when the record has no usable
report price, only `price` and `priceSource` change and the calculated block
is left untouched rather than recomputed. -/
theorem overlay_calculated_consistency (company : Company) (livePrice : ℚ) :
    ((¬ truthyQ company.price ∨ company.price.getD 0 ≤ 0) →
      overlayLivePrice company livePrice =
        { company with price := some livePrice, priceSource := some "live" }) ∧
    (truthyQ company.price → 0 < company.price.getD 0 → livePrice ≠ 0 →
      truthyQ company.fiftyTwoWeekHigh →
      (overlayLivePrice company livePrice).calculated.distanceFromHigh =
        distanceFrom52WeekHigh (overlayLivePrice company livePrice)) ∧
    (truthyQ company.price → 0 < company.price.getD 0 →
      truthyQ (effectivePe (overlayLivePrice company livePrice)) →
      truthyQ company.revenueYoyPct → 0 < company.revenueYoyPct.getD 0 →
      (overlayLivePrice company livePrice).calculated.gav =
        growthAdjustedValuation (overlayLivePrice company livePrice)) ∧
    ((overlayLivePrice company livePrice).calculated.momentum =
        company.calculated.momentum ∧
      (overlayLivePrice company livePrice).calculated.operatingLeverage =
        company.calculated.operatingLeverage) := by
  refine ⟨fun h => ?_, fun ht hp hl hh => ?_, fun ht hp hpe hg hgpos => ?_, ?_, ?_⟩
  · unfold overlayLivePrice
    rw [if_pos h]
  · have hc : ¬(¬ truthyQ company.price ∨ company.price.getD 0 ≤ 0) :=
      fun hor => hor.elim (fun h1 => h1 ht) (fun h2 => absurd hp (not_lt.mpr h2))
    unfold overlayLivePrice
    rw [if_neg hc]
    unfold overlayCalc overlayScaledCompany distanceFrom52WeekHigh
    dsimp only
    rw [if_pos hh]
    have hlp : truthyQ (some livePrice) = true := by
      simp [truthyQ, hl]
    rw [if_pos ⟨hlp, hh⟩]
    simp only [Option.getD_some]
    rw [round2]
    rw [show (livePrice - company.fiftyTwoWeekHigh.getD 0) /
        company.fiftyTwoWeekHigh.getD 0 * 100 * 100 =
        (livePrice - company.fiftyTwoWeekHigh.getD 0) /
        company.fiftyTwoWeekHigh.getD 0 * 10000 from by ring]
  · have hc : ¬(¬ truthyQ company.price ∨ company.price.getD 0 ≤ 0) :=
      fun hor => hor.elim (fun h1 => h1 ht) (fun h2 => absurd hp (not_lt.mpr h2))
    unfold overlayLivePrice at hpe ⊢
    rw [if_neg hc] at hpe ⊢
    unfold overlayCalc growthAdjustedValuation
    dsimp only
    have hpe2 : truthyQ (effectivePe (overlayScaledCompany company livePrice)) := hpe
    rw [if_pos ⟨hpe2, hg, hgpos⟩]
    rw [if_pos ⟨hpe2, hg, hgpos⟩]
    rfl
  · unfold overlayLivePrice
    by_cases hc : ¬ truthyQ company.price ∨ company.price.getD 0 ≤ 0
    · rw [if_pos hc]
    · rw [if_neg hc]
      rfl
  · unfold overlayLivePrice
    by_cases hc : ¬ truthyQ company.price ∨ company.price.getD 0 ≤ 0
    · rw [if_pos hc]
    · rw [if_neg hc]
      rfl

/-- A record with a usable report price for the C5 witness: price 100,
run-rate P/E 20, growth 50, 52-week high 150. -/
def c5w : Company :=
  { ticker := "W", price := some 100, runRatePe := some 20,
    revenueYoyPct := some 50, fiftyTwoWeekHigh := some 150 }

/-- A record without a usable report price for the C5 witness. -/
def c5n : Company := { ticker := "N", fiftyTwoWeekHigh := some 100 }

/-- Witness for `overlay_calculated_consistency` at concrete records overlaid
with live price 80. -/
theorem overlay_calculated_consistency_witness :
    (overlayLivePrice c5w 80).calculated.distanceFromHigh =
      distanceFrom52WeekHigh (overlayLivePrice c5w 80) ∧
    (overlayLivePrice c5w 80).calculated.gav =
      growthAdjustedValuation (overlayLivePrice c5w 80) ∧
    (overlayLivePrice c5w 80).calculated.momentum = c5w.calculated.momentum ∧
    overlayLivePrice c5n 80 =
      { c5n with price := some 80, priceSource := some "live" } :=
  ⟨(overlay_calculated_consistency c5w 80).2.1 (by decide) (by decide) (by decide)
      (by decide),
   (overlay_calculated_consistency c5w 80).2.2.1 (by decide) (by decide)
      (by
        unfold overlayLivePrice
        rw [if_neg (by decide)]
        norm_num [overlayScaledCompany, overlayPe, effectivePe, truthyQ, c5w,
          round2, jsRound])
      (by decide) (by decide),
   (overlay_calculated_consistency c5w 80).2.2.2.1,
   (overlay_calculated_consistency c5n 80).1 (Or.inl (by decide))⟩

/-- Claim C5 is false as stated: with no usable report price the overlay does
not recompute the calculated block from the resulting record — after
substituting the live price 80 the stale `distanceFromHigh` is still null even
though the 52-week high (100) is present, while a true recomputation yields
−20. -/
theorem overlay_calculated_counterexample :
    (overlayLivePrice { ticker := "X", fiftyTwoWeekHigh := some 100 } 80
      ).calculated.distanceFromHigh = none ∧
    distanceFrom52WeekHigh
      (overlayLivePrice { ticker := "X", fiftyTwoWeekHigh := some 100 } 80) =
      some (-20) ∧
    (none : Option ℚ) ≠ some (-20) := by
  refine ⟨rfl, ?_, by decide⟩
  unfold overlayLivePrice
  rw [if_pos (Or.inl (by decide))]
  unfold distanceFrom52WeekHigh
  dsimp only
  rw [if_pos (by decide)]
  norm_num [jsRound]

/-- Spec side: the trend rule of the momentum claim — accelerating above 2,
decelerating below −2, else stable. -/
def specTrend (delta : ℚ) : String :=
  if 2 < delta then "accelerating"
  else if delta < -2 then "decelerating"
  else "stable"

/-- Claim C7 (amended): fewer than 3 history entries yield null; with at least
3 entries, current/prior QoQ come from entries [0]/[1] when present, else are
back-derived from nonzero revenues; output values are rounded to 2 decimals;
the trend thresholds ±2 are applied to the unrounded delta (not to the rounded
delta the claim describes). -/
theorem momentum_matches_spec (company : Company) :
    (company.quarterlyHistory.length < 3 → sequentialMomentum company = none) ∧
    (∀ (h0 h1 h2 : QuarterEntry) (rest : List QuarterEntry) (c p : ℚ),
      company.quarterlyHistory = h0 :: h1 :: h2 :: rest →
      h0.revenueQoqPct = some c → h1.revenueQoqPct = some p →
      sequentialMomentum company =
        some ⟨round2 c, round2 p, round2 (c - p), specTrend (c - p)⟩) ∧
    (∀ (h0 h1 h2 : QuarterEntry) (rest : List QuarterEntry) (r0 r1 r2 : ℚ),
      company.quarterlyHistory = h0 :: h1 :: h2 :: rest →
      h0.revenueQoqPct = none → h1.revenueQoqPct = none →
      h0.revenueMil = some r0 → h1.revenueMil = some r1 → h2.revenueMil = some r2 →
      r0 ≠ 0 → r1 ≠ 0 → r2 ≠ 0 →
      sequentialMomentum company =
        some ⟨round2 ((r0 - r1) / r1 * 100), round2 ((r1 - r2) / r2 * 100),
          round2 ((r0 - r1) / r1 * 100 - (r1 - r2) / r2 * 100),
          specTrend ((r0 - r1) / r1 * 100 - (r1 - r2) / r2 * 100)⟩) := by
  refine ⟨fun hlen => ?_, ?_, ?_⟩
  · unfold sequentialMomentum
    match hh : company.quarterlyHistory with
    | [] => rfl
    | [_] => rfl
    | [_, _] => rfl
    | _ :: _ :: _ :: _ =>
      rw [hh] at hlen
      simp at hlen
      omega
  · intro h0 h1 h2 rest c p hh hc hp
    unfold sequentialMomentum qoqOf
    rw [hh]
    dsimp only
    rw [hc, hp]
    unfold specTrend
    rfl
  · intro h0 h1 h2 rest r0 r1 r2 hh hq0 hq1 hr0 hr1 hr2 hn0 hn1 hn2
    unfold sequentialMomentum qoqOf
    rw [hh]
    dsimp only
    rw [hq0, hq1, hr0, hr1, hr2]
    dsimp only
    rw [if_pos ⟨hn0, hn1⟩, if_pos ⟨hn1, hn2⟩]
    unfold specTrend
    rfl

/-- The momentum example from the claim: quarterly QoQ history 10, 6, 3. -/
def c7ex : Company :=
  { ticker := "E",
    quarterlyHistory :=
      [{ revenueQoqPct := some 10 }, { revenueQoqPct := some 6 },
       { revenueQoqPct := some 3 }] }

/-- Witness for `momentum_matches_spec`: the claim's example history
`[{revenueQoqPct:10},{revenueQoqPct:6},{revenueQoqPct:3}]` gives
`{currentQoq:10, priorQoq:6, delta:4, trend:'accelerating'}`. -/
theorem momentum_matches_spec_witness :
    sequentialMomentum c7ex =
      some ⟨round2 10, round2 6, round2 ((10 : ℚ) - 6), specTrend ((10 : ℚ) - 6)⟩ ∧
    sequentialMomentum c7ex = some ⟨10, 6, 4, "accelerating"⟩ := by
  have h := (momentum_matches_spec c7ex).2.1 { revenueQoqPct := some 10 }
    { revenueQoqPct := some 6 } { revenueQoqPct := some 3 } [] 10 6 rfl rfl rfl
  refine ⟨h, ?_⟩
  rw [h]
  norm_num [round2, jsRound, specTrend]

/-- A record whose unrounded delta 2.004 rounds to 2.00: the claim's
trend-from-rounded-delta rule would say stable. -/
def c7cex : Company :=
  { ticker := "X",
    quarterlyHistory :=
      [{ revenueQoqPct := some (10 + 1/250) }, { revenueQoqPct := some 8 },
       { revenueQoqPct := some 0 }] }

/-- Claim C7 is false as stated: for QoQ history 10.004, 8, 0 the code reports
delta 2.00 with trend 'accelerating' (thresholds use the unrounded delta
2.004), while the claim's rule applied to the rounded delta 2.00 yields
'stable'. -/
theorem momentum_trend_counterexample :
    sequentialMomentum c7cex = some ⟨10, 8, 2, "accelerating"⟩ ∧
    specTrend 2 = "stable" ∧ "accelerating" ≠ "stable" := by
  refine ⟨?_, by norm_num [specTrend], by decide⟩
  have h := (momentum_matches_spec c7cex).2.1 { revenueQoqPct := some (10 + 1/250) }
    { revenueQoqPct := some 8 } { revenueQoqPct := some 0 } [] (10 + 1/250) 8 rfl rfl rfl
  rw [h]
  norm_num [round2, jsRound, specTrend]

-- ── Merge / reconciliation layer (src/server/dataLoader.js) ───────────────────

/-- Unit-economics block extracted from markdown. -/
structure UnitEconomics where
  cac : Option ℚ := none
  arpu : Option ℚ := none
  arpuToCacRatio : Option ℚ := none
deriving DecidableEq, Repr

/-- The `peValues` block of a markdown analysis record. -/
structure PeValues where
  trailingPe : Option ℚ := none
  runRatePe : Option ℚ := none
  forwardPe : Option ℚ := none
  normalizedPe : Option ℚ := none
  priceToSales : Option ℚ := none
deriving DecidableEq, Repr

/-- The `financials` block of a markdown analysis record. -/
structure MdFinancials where
  ebitdaMarginPct : Option ℚ := none
  grossMarginPct : Option ℚ := none
  operatingLeverage : Option ℚ := none
  dilutionPct : Option ℚ := none
  fcfMarginPct : Option ℚ := none
  revenueYoyPct : Option ℚ := none
  revenueQoqPct : Option ℚ := none
deriving DecidableEq, Repr

/-- A JSON-normalized company record, restricted to the fields read or written
by `mergeMarkdownIntoNormalized`. -/
structure NormRecord where
  ticker : String := ""
  verdict : Option String := none
  convictionScore : Option ℚ := none
  trailingPe : Option ℚ := none
  runRatePe : Option ℚ := none
  forwardPe : Option ℚ := none
  normalizedPe : Option ℚ := none
  priceToSales : Option ℚ := none
  ebitdaMarginPct : Option ℚ := none
  grossMarginPct : Option ℚ := none
  mdOperatingLeverage : Option ℚ := none
  dilutionPct : Option ℚ := none
  fcfMarginPct : Option ℚ := none
  revenueRecentMil : Option ℚ := none
  revenueYoyPct : Option ℚ := none
  revenueQoqPct : Option ℚ := none
  revenueRecentLabel : String := ""
  quarterlyHistory : List QuarterEntry := []
  unitEconomics : Option UnitEconomics := none
  saulRules : Option (List (String × String)) := none
  saulSummary : Option SaulSummary := none
  bullCase : List String := []
  bearCase : List String := []
deriving DecidableEq, Repr

/-- A markdown-extracted analysis record, restricted to the fields consumed by
`mergeMarkdownIntoNormalized`. -/
structure AnalysisRecord where
  verdict : Option String := none
  convictionScore : Option ℚ := none
  peValues : Option PeValues := none
  financials : Option MdFinancials := none
  quarterlyHistory : List QuarterEntry := []
  unitEconomics : Option UnitEconomics := none
  saulRules : Option (List (String × String)) := none
  saulSummary : Option SaulSummary := none
  bullCase : List String := []
  bearCase : List String := []
deriving DecidableEq, Repr

/-- The `if (!norm.x && md.x) norm.x = md.x` gap-fill pattern on numeric
fields. -/
def fillQ (normV mdV : Option ℚ) : Option ℚ :=
  if ¬ truthyQ normV ∧ truthyQ mdV then mdV else normV

/-- Quarterly-history merge, stage 1 (dataLoader.js lines 223-226): markdown
history only when the JSON one is empty. -/
def mergeHistoryStage1 (norm : NormRecord) (analysis : AnalysisRecord) :
    List QuarterEntry :=
  if norm.quarterlyHistory = [] ∧ analysis.quarterlyHistory ≠ [] then
    analysis.quarterlyHistory
  else norm.quarterlyHistory

/-- Quarterly-history merge, stage 2 (dataLoader.js lines 230-240): synthesize
a single `Latest` entry when still empty but a current-quarter YoY exists. -/
def mergeHistory (norm : NormRecord) (analysis : AnalysisRecord) :
    List QuarterEntry :=
  if mergeHistoryStage1 norm analysis = [] ∧ norm.revenueYoyPct.isSome then
    [{ quarter := if norm.revenueRecentLabel ≠ "" then norm.revenueRecentLabel
        else "Latest",
       calendarQuarter := none, quarterEnd := none,
       revenueMil := norm.revenueRecentMil,
       revenueYoyPct := norm.revenueYoyPct,
       revenueQoqPct := norm.revenueQoqPct }]
  else mergeHistoryStage1 norm analysis

/-- Saul-summary merge, first step (dataLoader.js lines 246-251): recompute
from the markdown rules when the JSON rules are missing or empty and markdown
ones are present and non-empty. -/
def mergeSaulSummary1 (norm : NormRecord) (analysis : AnalysisRecord) :
    Option SaulSummary :=
  if (norm.saulRules = none ∨ norm.saulRules = some []) ∧
      analysis.saulRules.isSome ∧ analysis.saulRules.getD [] ≠ [] then
    computeSaulSummary analysis.saulRules
  else norm.saulSummary

/-- Saul-summary merge, second step (dataLoader.js line 252): the markdown
summary fills a still-missing one. -/
def mergeSaulSummary (norm : NormRecord) (analysis : AnalysisRecord) :
    Option SaulSummary :=
  if mergeSaulSummary1 norm analysis = none ∧ analysis.saulSummary.isSome then
    analysis.saulSummary
  else mergeSaulSummary1 norm analysis

/-- `mergeMarkdownIntoNormalized` from src/server/dataLoader.js lines 198-261:
markdown fills gaps (falsy JSON fields) only, except `mdOperatingLeverage`,
`dilutionPct`, `fcfMarginPct` and `unitEconomics`, which are set whenever the
markdown provides them. -/
def mergeMarkdownIntoNormalized (norm : NormRecord) (analysis : AnalysisRecord) :
    NormRecord :=
  { norm with
    verdict :=
      if ¬ truthyS norm.verdict ∧ truthyS analysis.verdict then analysis.verdict
      else norm.verdict
    convictionScore := fillQ norm.convictionScore analysis.convictionScore
    trailingPe :=
      match analysis.peValues with
      | some pv => fillQ norm.trailingPe pv.trailingPe
      | none => norm.trailingPe
    runRatePe :=
      match analysis.peValues with
      | some pv => fillQ norm.runRatePe pv.runRatePe
      | none => norm.runRatePe
    forwardPe :=
      match analysis.peValues with
      | some pv => fillQ norm.forwardPe pv.forwardPe
      | none => norm.forwardPe
    normalizedPe :=
      match analysis.peValues with
      | some pv => fillQ norm.normalizedPe pv.normalizedPe
      | none => norm.normalizedPe
    priceToSales :=
      match analysis.peValues with
      | some pv => fillQ norm.priceToSales pv.priceToSales
      | none => norm.priceToSales
    ebitdaMarginPct :=
      match analysis.financials with
      | some fin => fillQ norm.ebitdaMarginPct fin.ebitdaMarginPct
      | none => norm.ebitdaMarginPct
    grossMarginPct :=
      match analysis.financials with
      | some fin => fillQ norm.grossMarginPct fin.grossMarginPct
      | none => norm.grossMarginPct
    mdOperatingLeverage :=
      match analysis.financials with
      | some fin =>
        if truthyQ fin.operatingLeverage then fin.operatingLeverage
        else norm.mdOperatingLeverage
      | none => norm.mdOperatingLeverage
    dilutionPct :=
      match analysis.financials with
      | some fin =>
        if truthyQ fin.dilutionPct then fin.dilutionPct else norm.dilutionPct
      | none => norm.dilutionPct
    fcfMarginPct :=
      match analysis.financials with
      | some fin =>
        if truthyQ fin.fcfMarginPct then fin.fcfMarginPct else norm.fcfMarginPct
      | none => norm.fcfMarginPct
    quarterlyHistory := mergeHistory norm analysis
    unitEconomics :=
      if analysis.unitEconomics.isSome then analysis.unitEconomics
      else norm.unitEconomics
    saulRules :=
      if (norm.saulRules = none ∨ norm.saulRules = some []) ∧
          analysis.saulRules.isSome then analysis.saulRules
      else norm.saulRules
    saulSummary := mergeSaulSummary norm analysis
    bullCase :=
      if norm.bullCase = [] ∧ analysis.bullCase ≠ [] then analysis.bullCase
      else norm.bullCase
    bearCase :=
      if norm.bearCase = [] ∧ analysis.bearCase ≠ [] then analysis.bearCase
      else norm.bearCase }

/-- The merge step of `loadCompany` (dataLoader.js lines 186-188): the merge
runs only when both a normalized record and an analysis exist; with no
analysis the record is returned as is. -/
def loadCompanyMerge (norm : NormRecord) (analysis : Option AnalysisRecord) :
    NormRecord :=
  match analysis with
  | some a => mergeMarkdownIntoNormalized norm a
  | none => norm

lemma fillQ_truthy (a b : Option ℚ) (h : truthyQ a) : fillQ a b = a := by
  unfold fillQ
  rw [if_neg (fun hcon => hcon.1 h)]

/-- Claim C4 (amended): markdown is copied into a JSON-populated field only
when that field is falsy — null/absent/empty, and for numeric fields also 0 —
so every field holding a truthy value survives the merge unchanged (the
markdown-only fields `mdOperatingLeverage`, `dilutionPct`, `fcfMarginPct` and
`unitEconomics`, never populated by the JSON normalizer, are set whenever
markdown provides them); and reconciling with an absent markdown record
returns the JSON record unchanged. -/
theorem merge_preserves_truthy_fields (norm : NormRecord)
    (analysis : AnalysisRecord)
    (hss : norm.saulSummary.isSome →
      ¬(norm.saulRules = none ∨ norm.saulRules = some [])) :
    (truthyS norm.verdict →
      (mergeMarkdownIntoNormalized norm analysis).verdict = norm.verdict) ∧
    (truthyQ norm.convictionScore →
      (mergeMarkdownIntoNormalized norm analysis).convictionScore =
        norm.convictionScore) ∧
    (truthyQ norm.trailingPe →
      (mergeMarkdownIntoNormalized norm analysis).trailingPe = norm.trailingPe) ∧
    (truthyQ norm.runRatePe →
      (mergeMarkdownIntoNormalized norm analysis).runRatePe = norm.runRatePe) ∧
    (truthyQ norm.forwardPe →
      (mergeMarkdownIntoNormalized norm analysis).forwardPe = norm.forwardPe) ∧
    (truthyQ norm.normalizedPe →
      (mergeMarkdownIntoNormalized norm analysis).normalizedPe =
        norm.normalizedPe) ∧
    (truthyQ norm.priceToSales →
      (mergeMarkdownIntoNormalized norm analysis).priceToSales =
        norm.priceToSales) ∧
    (truthyQ norm.ebitdaMarginPct →
      (mergeMarkdownIntoNormalized norm analysis).ebitdaMarginPct =
        norm.ebitdaMarginPct) ∧
    (truthyQ norm.grossMarginPct →
      (mergeMarkdownIntoNormalized norm analysis).grossMarginPct =
        norm.grossMarginPct) ∧
    (norm.quarterlyHistory ≠ [] →
      (mergeMarkdownIntoNormalized norm analysis).quarterlyHistory =
        norm.quarterlyHistory) ∧
    (¬(norm.saulRules = none ∨ norm.saulRules = some []) →
      (mergeMarkdownIntoNormalized norm analysis).saulRules = norm.saulRules) ∧
    (norm.saulSummary.isSome →
      (mergeMarkdownIntoNormalized norm analysis).saulSummary =
        norm.saulSummary) ∧
    (norm.bullCase ≠ [] →
      (mergeMarkdownIntoNormalized norm analysis).bullCase = norm.bullCase) ∧
    (norm.bearCase ≠ [] →
      (mergeMarkdownIntoNormalized norm analysis).bearCase = norm.bearCase) ∧
    ((mergeMarkdownIntoNormalized norm analysis).ticker = norm.ticker ∧
      (mergeMarkdownIntoNormalized norm analysis).revenueRecentMil =
        norm.revenueRecentMil ∧
      (mergeMarkdownIntoNormalized norm analysis).revenueYoyPct =
        norm.revenueYoyPct ∧
      (mergeMarkdownIntoNormalized norm analysis).revenueQoqPct =
        norm.revenueQoqPct ∧
      (mergeMarkdownIntoNormalized norm analysis).revenueRecentLabel =
        norm.revenueRecentLabel) ∧
    (∀ n : NormRecord, loadCompanyMerge n none = n) := by
  unfold mergeMarkdownIntoNormalized
  dsimp only
  refine ⟨?_, ?_, ?_, ?_, ?_, ?_, ?_, ?_, ?_, ?_, ?_, ?_, ?_, ?_,
    ⟨rfl, rfl, rfl, rfl, rfl⟩, fun _ => rfl⟩
  · intro h
    rw [if_neg (fun hcon => hcon.1 h)]
  · intro h
    exact fillQ_truthy _ _ h
  · intro h
    cases analysis.peValues <;> simp [fillQ_truthy _ _ h]
  · intro h
    cases analysis.peValues <;> simp [fillQ_truthy _ _ h]
  · intro h
    cases analysis.peValues <;> simp [fillQ_truthy _ _ h]
  · intro h
    cases analysis.peValues <;> simp [fillQ_truthy _ _ h]
  · intro h
    cases analysis.peValues <;> simp [fillQ_truthy _ _ h]
  · intro h
    cases analysis.financials <;> simp [fillQ_truthy _ _ h]
  · intro h
    cases analysis.financials <;> simp [fillQ_truthy _ _ h]
  · intro h
    have hs1 : mergeHistoryStage1 norm analysis = norm.quarterlyHistory := by
      unfold mergeHistoryStage1
      rw [if_neg (fun hcon => h hcon.1)]
    unfold mergeHistory
    rw [hs1]
    rw [if_neg (fun hcon => h hcon.1)]
  · intro h
    rw [if_neg (fun hcon => h hcon.1)]
  · intro h
    have h1 : mergeSaulSummary1 norm analysis = norm.saulSummary := by
      unfold mergeSaulSummary1
      rw [if_neg (fun hcon => hss h hcon.1)]
    unfold mergeSaulSummary
    rw [h1]
    rw [if_neg (fun hcon => by
      rw [hcon.1] at h
      simp at h)]
  · intro h
    rw [if_neg (fun hcon => h hcon.1)]
  · intro h
    rw [if_neg (fun hcon => h hcon.1)]

/-- A fully-populated JSON record for the C4 witness. -/
def c4norm : NormRecord :=
  { ticker := "T", verdict := some "PASS", convictionScore := some 8,
    trailingPe := some 5, runRatePe := some 4, forwardPe := some 3,
    normalizedPe := some 6, priceToSales := some 2, ebitdaMarginPct := some 30,
    grossMarginPct := some 60, revenueRecentMil := some 100,
    revenueYoyPct := some 10, revenueQoqPct := some 5,
    revenueRecentLabel := "Q1",
    quarterlyHistory := [{ quarter := "Q1 2025" }],
    saulRules := some [("R_001", "PASS")],
    bullCase := ["a"], bearCase := ["b"] }

/-- The P/E block of the C4 witness markdown record. -/
def c4mdPe : PeValues :=
  { trailingPe := some 50, runRatePe := some 40, forwardPe := some 30,
    normalizedPe := some 60, priceToSales := some 20 }

/-- The financials block of the C4 witness markdown record. -/
def c4mdFin : MdFinancials :=
  { ebitdaMarginPct := some 99, grossMarginPct := some 98 }

/-- A markdown record offering conflicting values for the C4 witness. -/
def c4md : AnalysisRecord :=
  { verdict := some "FAIL", convictionScore := some 3,
    peValues := some c4mdPe,
    financials := some c4mdFin,
    quarterlyHistory := [{ quarter := "QX" }],
    saulRules := some [("R_001", "FAIL")],
    bullCase := ["x"], bearCase := ["y"] }

/-- Witness for `merge_preserves_truthy_fields`: every populated field of
`c4norm` survives the merge with the conflicting `c4md`, and merging with an
absent markdown record is the identity. -/
theorem merge_preserves_truthy_fields_witness :
    (mergeMarkdownIntoNormalized c4norm c4md).verdict = c4norm.verdict ∧
    (mergeMarkdownIntoNormalized c4norm c4md).convictionScore =
      c4norm.convictionScore ∧
    (mergeMarkdownIntoNormalized c4norm c4md).trailingPe = c4norm.trailingPe ∧
    (mergeMarkdownIntoNormalized c4norm c4md).quarterlyHistory =
      c4norm.quarterlyHistory ∧
    (mergeMarkdownIntoNormalized c4norm c4md).saulRules = c4norm.saulRules ∧
    (mergeMarkdownIntoNormalized c4norm c4md).bullCase = c4norm.bullCase ∧
    loadCompanyMerge c4norm none = c4norm :=
  ⟨(merge_preserves_truthy_fields c4norm c4md (by decide)).1 (by decide),
   (merge_preserves_truthy_fields c4norm c4md (by decide)).2.1 (by decide),
   (merge_preserves_truthy_fields c4norm c4md (by decide)).2.2.1 (by decide),
   (merge_preserves_truthy_fields c4norm c4md (by decide)).2.2.2.2.2.2.2.2.2.1
     (by decide),
   (merge_preserves_truthy_fields c4norm c4md (by decide)).2.2.2.2.2.2.2.2.2.2.1
     (by decide),
   (merge_preserves_truthy_fields c4norm c4md
     (by decide)).2.2.2.2.2.2.2.2.2.2.2.2.1 (by decide),
   (merge_preserves_truthy_fields c4norm c4md
     (by decide)).2.2.2.2.2.2.2.2.2.2.2.2.2.2.2 c4norm⟩

/-- A JSON record whose `ebitdaMarginPct` is populated with 0. -/
def c4cexNorm : NormRecord := { ticker := "T", ebitdaMarginPct := some 0 }

/-- A markdown record carrying `ebitdaMarginPct = 50`. -/
def c4cexMd : AnalysisRecord :=
  { financials := some ({ ebitdaMarginPct := some 50 } : MdFinancials) }

/-- Claim C4 is false as stated: the JSON record's `ebitdaMarginPct` is
populated (0, neither null nor absent nor empty), yet the merge replaces it
with the markdown value 50 — the guard is JS falsiness, not null/absent/empty. -/
theorem merge_overwrites_zero_counterexample :
    (mergeMarkdownIntoNormalized c4cexNorm c4cexMd).ebitdaMarginPct = some 50 ∧
    c4cexNorm.ebitdaMarginPct = some 0 ∧
    some (0 : ℚ) ≠ (none : Option ℚ) ∧ some (50 : ℚ) ≠ some (0 : ℚ) := by
  refine ⟨by decide, rfl, by decide, by decide⟩

-- ── Catalog load filter (src/server/dataLoader.js loadAll) ────────────────────

/-- `toUpperCase` on a string, mapped over its characters (kernel-computable
replacement for `String.toUpper`). -/
def jsToUpper (s : String) : String := ⟨s.data.map Char.toUpper⟩

/-- The per-directory inclusion decision of `loadAll` (dataLoader.js lines
334-336): a directory is kept when the holdings list is empty or contains the
uppercased directory name. -/
def keepDir (portfolioHoldings : List String) (dirName : String) : Bool :=
  portfolioHoldings = [] ∨ jsToUpper dirName ∈ portfolioHoldings

/-- The company-collection loop of `loadAll` (dataLoader.js lines 331-351):
skip directories filtered out by the holdings list, load the rest (the
per-directory load, file I/O included, is the `loadOne` parameter), and keep
the records that loaded. -/
def loadAllCatalog (portfolioHoldings : List String) (companyDirs : List String)
    (loadOne : String → Option NormRecord) : List NormRecord :=
  companyDirs.filterMap (fun dirName =>
    if portfolioHoldings ≠ [] ∧ jsToUpper dirName ∉ portfolioHoldings then none
    else loadOne dirName)

lemma loadAllCatalog_eq_filter (hold : List String) (dirs : List String)
    (loadOne : String → Option NormRecord) :
    loadAllCatalog hold dirs loadOne =
      (dirs.filter (keepDir hold)).filterMap loadOne := by
  induction dirs with
  | nil => rfl
  | cons d rest ih =>
    unfold loadAllCatalog at ih ⊢
    rw [List.filterMap_cons, List.filter_cons]
    by_cases hC : hold = [] ∨ jsToUpper d ∈ hold
    · have hk : keepDir hold d = true := by
        unfold keepDir
        exact decide_eq_true hC
      have hnc : ¬(hold ≠ [] ∧ jsToUpper d ∉ hold) := by
        rcases hC with h | h
        · exact fun hcon => hcon.1 h
        · exact fun hcon => hcon.2 h
      rw [if_neg hnc, if_pos hk, List.filterMap_cons, ih]
    · have hk2 : ¬(keepDir hold d = true) := by
        unfold keepDir
        simpa using hC
      have hc2 : hold ≠ [] ∧ jsToUpper d ∉ hold :=
        ⟨fun h => hC (Or.inl h), fun h => hC (Or.inr h)⟩
      rw [if_pos hc2, if_neg hk2, ih]

/-- Claim C9 (amended): the holdings list read from portfolio.json IS consumed
by `loadAll` — when non-empty it filters the scanned directories to those
whose uppercased name it contains; two runs differing only in the holdings
list produce the same catalog exactly when both lists make the same inclusion
decision for every scanned directory. -/
theorem loadAll_holdings_filter (h1 h2 hold : List String) (dirs : List String)
    (loadOne : String → Option NormRecord)
    (hsame : ∀ d ∈ dirs, keepDir h1 d = keepDir h2 d) :
    loadAllCatalog h1 dirs loadOne = loadAllCatalog h2 dirs loadOne ∧
    loadAllCatalog hold dirs loadOne =
      (dirs.filter (keepDir hold)).filterMap loadOne := by
  constructor
  · rw [loadAllCatalog_eq_filter, loadAllCatalog_eq_filter,
      List.filter_congr hsame]
  · exact loadAllCatalog_eq_filter hold dirs loadOne

/-- The record produced by the stub loader in the C9 witness and
counterexample. -/
def aaplRec : NormRecord := { ticker := "AAPL" }

/-- Witness for `loadAll_holdings_filter`: the lists `["AAPL"]` and
`["AAPL", "MSFT"]` make the same decision on directory `aapl`. -/
theorem loadAll_holdings_filter_witness :
    loadAllCatalog ["AAPL"] ["aapl"] (fun _ => some aaplRec) =
      loadAllCatalog ["AAPL", "MSFT"] ["aapl"] (fun _ => some aaplRec) ∧
    loadAllCatalog ["MSFT"] ["aapl"] (fun _ => some aaplRec) =
      ((["aapl"] : List String).filter (keepDir ["MSFT"])).filterMap
        (fun _ => some aaplRec) :=
  loadAll_holdings_filter ["AAPL"] ["AAPL", "MSFT"] ["MSFT"] ["aapl"]
    (fun _ => some aaplRec) (by decide)

/-- Claim C9 is false as stated: two runs that differ only in the holdings
list (empty versus `["MSFT"]`) over the same reports directory produce
different catalogs — the empty list loads `aapl`, the list `["MSFT"]` filters
it out. -/
theorem loadAll_holdings_counterexample :
    loadAllCatalog [] ["aapl"] (fun _ => some aaplRec) = [aaplRec] ∧
    loadAllCatalog ["MSFT"] ["aapl"] (fun _ => some aaplRec) = [] ∧
    ([aaplRec] : List NormRecord) ≠ [] := by
  refine ⟨by decide, by decide, by decide⟩

-- ── Markdown rule extraction (extractSaulRules,
-- src/public/js/dashboards/deepDive.js lines 496-537).  Each regex is embedded
-- atom by atom as an anchored matcher over the character list; the JS global
-- exec loop is the scanner `scanMatches`. ───────────────────────────────────

/-- `[A-Za-z]`. -/
def isAsciiLetter (c : Char) : Bool :=
  ('A' ≤ c ∧ c ≤ 'Z') ∨ ('a' ≤ c ∧ c ≤ 'z')

/-- The emoji/glyph class of the second pattern
(`✅ ❌ ⚠ FE0F ⭕ 🟡 ℹ ⚪`, the surrogate pair `🟡` taken as
U+1F7E1). -/
def isEmojiCh (c : Char) : Bool :=
  c.toNat ∈ [0x2705, 0x274C, 0x26A0, 0xFE0F, 0x2B55, 0x1F7E1, 0x2139, 0x26AA]

/-- A literal character (case-sensitive). -/
def expectCh (c : Char) : List Char → Option (List Char)
  | x :: rest => if x = c then some rest else none
  | [] => none

/-- A literal character under the regex `i` flag (case-insensitive). -/
def chCI (c : Char) : List Char → Option (List Char)
  | x :: rest => if x.toUpper = c.toUpper then some rest else none
  | [] => none

/-- An optional literal character (`c?`). -/
def optCh (c : Char) (s : List Char) : List Char :=
  match s with
  | x :: rest => if x = c then rest else s
  | [] => s

/-- An optional character from a class (`[..]?`). -/
def optChIn (cs : List Char) (s : List Char) : List Char :=
  match s with
  | x :: rest => if x ∈ cs then rest else s
  | [] => s

/-- A required character from a class (`[..]`). -/
def expectIn (cs : List Char) : List Char → Option (List Char)
  | x :: rest => if x ∈ cs then some rest else none
  | [] => none

/-- `\d+`: one or more digits, captured. -/
def matchDigits (s : List Char) : Option (List Char × List Char) :=
  if s.takeWhile Char.isDigit = [] then none
  else some (s.takeWhile Char.isDigit, s.dropWhile Char.isDigit)

/-- A literal word under the `i` flag, capturing the original characters. -/
def matchWordCI : List Char → List Char → Option (List Char × List Char)
  | [], s => some ([], s)
  | w :: ws, c :: cs =>
    if c.toUpper = w.toUpper then
      match matchWordCI ws cs with
      | some (cap, rest) => some (c :: cap, rest)
      | none => none
    else none
  | _ :: _, [] => none

/-- `INSUFFICIENT[_ ]DATA`. -/
def matchInsufficientData (s : List Char) : Option (List Char × List Char) :=
  match matchWordCI "INSUFFICIENT".data s with
  | some (cap1, rest1) =>
    match rest1 with
    | c :: rest2 =>
      if c = '_' ∨ c = ' ' then
        match matchWordCI "DATA".data rest2 with
        | some (cap2, rest3) => some (cap1 ++ c :: cap2, rest3)
        | none => none
      else none
    | [] => none
  | none => none

/-- The status alternation
`PASS|FAIL|WARNING|CAUTION|N\/A|UNCLEAR|INSUFFICIENT[_ ]DATA|PARTIAL|CONTEXT`,
tried in source order. -/
def matchStatus (s : List Char) : Option (List Char × List Char) :=
  matchWordCI "PASS".data s <|> matchWordCI "FAIL".data s <|>
  matchWordCI "WARNING".data s <|> matchWordCI "CAUTION".data s <|>
  matchWordCI "N/A".data s <|> matchWordCI "UNCLEAR".data s <|>
  matchInsufficientData s <|> matchWordCI "PARTIAL".data s <|>
  matchWordCI "CONTEXT".data s

/-- `R[_-]?(\d+[A-Za-z]?)`: the rule id, capture returned. -/
def matchRuleId (s : List Char) : Option (List Char × List Char) :=
  match chCI 'R' s with
  | some s1 =>
    match matchDigits (optChIn ['_', '-'] s1) with
    | some (ds, s2) =>
      match s2 with
      | c :: rest => if isAsciiLetter c then some (ds ++ [c], rest) else some (ds, s2)
      | [] => some (ds, s2)
    | none => none
  | none => none

/-- The shared rule cell `\|\s*\*?\*?R[_-]?(\d+[A-Za-z]?)\s*[^|]*\|` of the two
table patterns. -/
def matchRuleCell (s : List Char) : Option (List Char × List Char) :=
  match expectCh '|' s with
  | some s1 =>
    match matchRuleId (optCh '*' (optCh '*' (s1.dropWhile isJsWhitespace))) with
    | some (rn, s2) =>
      match expectCh '|'
          ((s2.dropWhile isJsWhitespace).dropWhile (fun c => c ≠ '|')) with
      | some s3 => some (rn, s3)
      | none => none
    | none => none
  | none => none

/-- Pattern 1 (bracket table): `...\|\s*\[?(STATUS)\]?\s*\|`. -/
def tryBracket (s : List Char) : Option ((List Char × List Char) × List Char) :=
  match matchRuleCell s with
  | some (rn, s1) =>
    match matchStatus (optCh '[' (s1.dropWhile isJsWhitespace)) with
    | some (st, s2) =>
      match expectCh '|' ((optCh ']' s2).dropWhile isJsWhitespace) with
      | some s3 => some ((rn, st), s3)
      | none => none
    | none => none
  | none => none

/-- Pattern 2 (emoji table):
`...\|\s*[EMOJI]*\s*\*?\*?(STATUS)\*?\*?\s*\|`. -/
def tryEmoji (s : List Char) : Option ((List Char × List Char) × List Char) :=
  match matchRuleCell s with
  | some (rn, s1) =>
    match matchStatus (optCh '*' (optCh '*'
        (((s1.dropWhile isJsWhitespace).dropWhile isEmojiCh).dropWhile
          isJsWhitespace))) with
    | some (st, s2) =>
      match expectCh '|' ((optCh '*' (optCh '*' s2)).dropWhile isJsWhitespace) with
      | some s3 => some ((rn, st), s3)
      | none => none
    | none => none
  | none => none

/-- The continuation `:\s*(STATUS)\*\*` of the inline pattern, tried at the
current lazy position. -/
def inlineColonTail (s : List Char) : Option (List Char × List Char) :=
  match matchStatus (s.dropWhile isJsWhitespace) with
  | some (st, s1) =>
    match expectCh '*' s1 with
    | some s2 =>
      match expectCh '*' s2 with
      | some s3 => some (st, s3)
      | none => none
    | none => none
  | none => none

/-- The lazy `[^*]*?:\s*(STATUS)\*\*` of the inline pattern: at each position
first try the continuation, else consume one non-`*` character. -/
def inlineLazy : List Char → Option (List Char × List Char)
  | [] => none
  | c :: cs =>
    if c = ':' then
      match inlineColonTail cs with
      | some r => some r
      | none => inlineLazy cs
    else if c ≠ '*' then inlineLazy cs
    else none

/-- Pattern 3 (inline bold):
`\*\*R[_-]?(\d+[A-Za-z]?)\s*[-–—:]\s*[^*]*?:\s*(STATUS)\*\*`. -/
def tryInline (s : List Char) : Option ((List Char × List Char) × List Char) :=
  match expectCh '*' s with
  | some s1 =>
    match expectCh '*' s1 with
    | some s2 =>
      match matchRuleId s2 with
      | some (rn, s3) =>
        match expectIn ['-', '–', '—', ':'] (s3.dropWhile isJsWhitespace) with
        | some s4 =>
          match inlineLazy (s4.dropWhile isJsWhitespace) with
          | some (st, s5) => some ((rn, st), s5)
          | none => none
        | none => none
      | none => none
    | none => none
  | none => none

/-- The JS global-exec loop: scan forward, at each position try the anchored
pattern; on a match record the captures and resume after the matched text.
The fuel (initialised to the string length) bounds the walk. -/
def scanAux (pat : List Char → Option ((List Char × List Char) × List Char)) :
    ℕ → List Char → List (List Char × List Char)
  | 0, _ => []
  | _ + 1, [] => []
  | fuel + 1, c :: cs =>
    match pat (c :: cs) with
    | some (cap, rest) => cap :: scanAux pat fuel rest
    | none => scanAux pat fuel cs

/-- All matches of a pattern over a document. -/
def scanMatches (pat : List Char → Option ((List Char × List Char) × List Char))
    (s : List Char) : List (List Char × List Char) :=
  scanAux pat s.length s

/-- `` `R_${ruleNum.padStart(3, '0')}` ``. -/
def padKey (rn : List Char) : String :=
  ⟨'R' :: '_' :: (List.replicate (3 - rn.length) '0' ++ rn)⟩

/-- Worker for `collapseWs`: the flag records whether the previous character
was whitespace (so only the first of a run emits an underscore). -/
def collapseWsAux : Bool → List Char → List Char
  | _, [] => []
  | inWs, c :: cs =>
    if isJsWhitespace c then
      if inWs then collapseWsAux true cs else '_' :: collapseWsAux true cs
    else c :: collapseWsAux false cs

/-- `replace(/\s+/g, '_')`: collapse each whitespace run to one underscore. -/
def collapseWs (l : List Char) : List Char := collapseWsAux false l

/-- `status.toUpperCase().replace(/\s+/g, '_')`. -/
def normStatus (st : List Char) : String := ⟨collapseWs (st.map Char.toUpper)⟩

/-- JS object assignment `rules[key] = status`: update in place (keeping
insertion order) or append. -/
def setRule : List (String × String) → String → String → List (String × String)
  | [], k, v => [(k, v)]
  | (k2, v2) :: rest, k, v =>
    if k2 = k then (k, v) :: rest else (k2, v2) :: setRule rest k v

/-- Truthiness of `rules[key]` (a missing key or empty string is falsy). -/
def ruleTruthy (rules : List (String × String)) (k : String) : Bool :=
  match rules.lookup k with
  | some v => v ≠ ""
  | none => false

/-- The pattern-1 loop: every match assigns unconditionally. -/
def applyAll (caps : List (List Char × List Char))
    (rules : List (String × String)) : List (String × String) :=
  caps.foldl (fun rs cap => setRule rs (padKey cap.1) (normStatus cap.2)) rules

/-- The pattern-2/3 loops: `if (!rules[key]) rules[key] = status` — matches
fill gaps only. -/
def applyGaps (caps : List (List Char × List Char))
    (rules : List (String × String)) : List (String × String) :=
  caps.foldl (fun rs cap =>
    if ruleTruthy rs (padKey cap.1) then rs
    else setRule rs (padKey cap.1) (normStatus cap.2)) rules

/-- `extractSaulRules` from src/public/js/dashboards/deepDive.js lines
496-537: run the three patterns over the document in order; pattern 1 wins,
patterns 2 and 3 fill gaps only. -/
def extractSaulRules (md : String) : List (String × String) :=
  applyGaps (scanMatches tryInline md.data)
    (applyGaps (scanMatches tryEmoji md.data)
      (applyAll (scanMatches tryBracket md.data) []))

-- ── C6 kit, chunk 1 ──

lemma scanAux_eq_nil
    (pat : List Char → Option ((List Char × List Char) × List Char)) :
    ∀ (fuel : ℕ) (s : List Char), (∀ t, t <:+ s → pat t = none) →
      scanAux pat fuel s = [] := by
  intro fuel
  induction fuel with
  | zero => intro s _; rfl
  | succ n ih =>
    intro s h
    cases s with
    | nil => rfl
    | cons c cs =>
      unfold scanAux
      rw [h (c :: cs) (List.suffix_refl _)]
      exact ih cs (fun t ht => h t (ht.trans (List.suffix_cons c cs)))

lemma suffix_head_mem {t l : List Char} (h : t <:+ l) :
    t = [] ∨ ∃ c t2, t = c :: t2 ∧ c ∈ l := by
  cases t with
  | nil => exact Or.inl rfl
  | cons c t2 => exact Or.inr ⟨c, t2, rfl, h.subset (List.mem_cons_self c t2)⟩

lemma head_suffix_of_append {a : Char} {xs ys t : List Char} (hxs : a ∉ xs)
    (h : (a :: t) <:+ (xs ++ ys)) : (a :: t) <:+ ys := by
  induction xs with
  | nil => simpa using h
  | cons x xs2 ih =>
    rw [List.cons_append, List.suffix_cons_iff] at h
    rcases h with h | h
    · exact absurd (List.mem_cons_self x xs2)
        (by rw [(List.cons.injEq _ _ _ _).mp h |>.1] at hxs; exact hxs)
    · exact ih (fun hm => hxs (List.mem_cons_of_mem x hm)) h

lemma pipe_suffix_one {a : Char} (zs : List Char) (hzs : a ∉ zs) (t : List Char)
    (h : (a :: t) <:+ (zs ++ [a])) : a :: t = [a] := by
  have h2 := head_suffix_of_append hzs h
  rw [List.suffix_cons_iff] at h2
  rcases h2 with h2 | h2
  · exact h2
  · exact absurd h2 (by simp)

lemma pipe_suffix_four {a : Char} (B1 B2 B3 : List Char) (h1 : a ∉ B1)
    (h2 : a ∉ B2) (h3 : a ∉ B3) (t : List Char)
    (h : (a :: t) <:+ (a :: (B1 ++ a :: (B2 ++ a :: (B3 ++ [a]))))) :
    a :: t = a :: (B1 ++ a :: (B2 ++ a :: (B3 ++ [a]))) ∨
    a :: t = a :: (B2 ++ a :: (B3 ++ [a])) ∨
    a :: t = a :: (B3 ++ [a]) ∨ a :: t = [a] := by
  rw [List.suffix_cons_iff] at h
  rcases h with h | h
  · exact Or.inl h
  · have h := head_suffix_of_append h1 h
    rw [List.suffix_cons_iff] at h
    rcases h with h | h
    · exact Or.inr (Or.inl h)
    · have h := head_suffix_of_append h2 h
      rw [List.suffix_cons_iff] at h
      rcases h with h | h
      · exact Or.inr (Or.inr (Or.inl h))
      · exact Or.inr (Or.inr (Or.inr (pipe_suffix_one B3 h3 t h)))

lemma tryBracket_head_fail {c : Char} {t : List Char} (h : ¬ c = '|') :
    tryBracket (c :: t) = none := by
  simp [tryBracket, matchRuleCell, expectCh, h]

lemma tryEmoji_head_fail {c : Char} {t : List Char} (h : ¬ c = '|') :
    tryEmoji (c :: t) = none := by
  simp [tryEmoji, matchRuleCell, expectCh, h]

lemma tryInline_head_fail {c : Char} {t : List Char} (h : ¬ c = '*') :
    tryInline (c :: t) = none := by
  simp [tryInline, expectCh, h]

lemma matchDigits_none (l : List Char) (h : ∀ c ∈ l, c.isDigit = false) :
    matchDigits l = none := by
  cases l with
  | nil => rfl
  | cons c cs =>
    have ht : List.takeWhile Char.isDigit (c :: cs) = [] := by
      rw [List.takeWhile_cons, h c (List.mem_cons_self c cs)]
      rfl
    unfold matchDigits
    rw [ht]
    rfl

lemma forall_mem_dropWhile {P : Char → Prop} {p : Char → Bool} {l : List Char}
    (h : ∀ c ∈ l, P c) : ∀ c ∈ l.dropWhile p, P c :=
  fun c hc => h c ((List.dropWhile_sublist p).subset hc)

lemma forall_mem_optCh {P : Char → Prop} {x : Char} {l : List Char}
    (h : ∀ c ∈ l, P c) : ∀ c ∈ optCh x l, P c := by
  cases l with
  | nil => exact h
  | cons y ys =>
    show ∀ c ∈ (if y = x then ys else y :: ys), P c
    by_cases hy : y = x
    · rw [if_pos hy]
      exact fun c hc => h c (List.mem_cons_of_mem y hc)
    · rw [if_neg hy]
      exact h

lemma forall_mem_optChIn {P : Char → Prop} {xs : List Char} {l : List Char}
    (h : ∀ c ∈ l, P c) : ∀ c ∈ optChIn xs l, P c := by
  cases l with
  | nil => exact h
  | cons y ys =>
    show ∀ c ∈ (if y ∈ xs then ys else y :: ys), P c
    by_cases hy : y ∈ xs
    · rw [if_pos hy]
      exact fun c hc => h c (List.mem_cons_of_mem y hc)
    · rw [if_neg hy]
      exact h

lemma chCI_some (a : Char) (l s1 : List Char) (h : chCI a l = some s1) :
    ∃ x, l = x :: s1 := by
  cases l with
  | nil => simp [chCI] at h
  | cons x rest =>
    refine ⟨x, ?_⟩
    have h2 : (if x.toUpper = a.toUpper then some rest else none) = some s1 := h
    by_cases hx : x.toUpper = a.toUpper
    · rw [if_pos hx] at h2
      rw [Option.some.inj h2]
    · rw [if_neg hx] at h2
      exact absurd h2 (by simp)

lemma matchRuleId_none (l : List Char) (h : ∀ c ∈ l, c.isDigit = false) :
    matchRuleId l = none := by
  unfold matchRuleId
  cases hc : chCI 'R' l with
  | none => rfl
  | some s1 =>
    obtain ⟨x, hx⟩ := chCI_some 'R' l s1 hc
    have hs1 : ∀ c ∈ s1, c.isDigit = false := by
      intro c hcm
      exact h c (by rw [hx]; exact List.mem_cons_of_mem x hcm)
    dsimp only
    rw [matchDigits_none _ (forall_mem_optChIn hs1)]

lemma matchRuleCell_fail_of_no_digits (s : List Char)
    (h : ∀ c ∈ s, c.isDigit = false) : matchRuleCell ('|' :: s) = none := by
  unfold matchRuleCell
  rw [show expectCh '|' ('|' :: s) = some s from by simp [expectCh]]
  dsimp only
  rw [matchRuleId_none _
    (forall_mem_optCh (forall_mem_optCh (forall_mem_dropWhile h)))]

lemma tryBracket_no_digits (s : List Char)
    (h : ∀ c ∈ s, c.isDigit = false) : tryBracket ('|' :: s) = none := by
  unfold tryBracket
  rw [matchRuleCell_fail_of_no_digits s h]

lemma tryEmoji_no_digits (s : List Char)
    (h : ∀ c ∈ s, c.isDigit = false) : tryEmoji ('|' :: s) = none := by
  unfold tryEmoji
  rw [matchRuleCell_fail_of_no_digits s h]

lemma dropWhile_append_all {p : Char → Bool} (xs ys : List Char)
    (h : ∀ c ∈ xs, p c = true) :
    (xs ++ ys).dropWhile p = ys.dropWhile p := by
  induction xs with
  | nil => rfl
  | cons x xs2 ih =>
    rw [List.cons_append, List.dropWhile_cons, h x (List.mem_cons_self x xs2)]
    exact ih (fun c hc => h c (List.mem_cons_of_mem x hc))

lemma drop_to_pipe (zs rest : List Char) (hzs : ∀ c ∈ zs, c ≠ '|') :
    ((zs ++ '|' :: rest).dropWhile isJsWhitespace).dropWhile
      (fun c => c ≠ '|') = '|' :: rest := by
  induction zs with
  | nil =>
    rw [List.nil_append, List.dropWhile_cons,
      show isJsWhitespace '|' = false from by decide]
    rw [if_neg (by simp)]
    rw [List.dropWhile_cons]
    simp
  | cons z zs2 ih =>
    rw [List.cons_append, List.dropWhile_cons]
    by_cases hz : isJsWhitespace z = true
    · rw [hz]
      simp only [if_true]
      exact ih (fun c hc => hzs c (List.mem_cons_of_mem z hc))
    · rw [Bool.not_eq_true] at hz
      rw [hz]
      simp only [Bool.false_eq_true, if_false]
      rw [List.dropWhile_cons]
      rw [show (decide ¬(z = '|')) = true from by
        simp [hzs z (List.mem_cons_self z zs2)]]
      simp only [if_true]
      rw [dropWhile_append_all _ _ (fun c hc => by
        simp [hzs c (List.mem_cons_of_mem z hc)])]
      rw [List.dropWhile_cons]
      simp
-- ── C6 kit, chunk 2 ──

lemma matchRuleCell_generic (c0 : Char) (mid rest : List Char)
    (hc0d : c0.isDigit = false) (hc0l : isAsciiLetter c0 = false)
    (hnp : ∀ c ∈ c0 :: mid, c ≠ '|') :
    matchRuleCell ('|' :: ' ' :: 'R' :: '_' :: '0' :: '0' :: '1' :: c0 ::
      (mid ++ '|' :: rest)) = some (['0', '0', '1'], rest) := by
  have htk : List.takeWhile Char.isDigit
      ('0' :: '0' :: '1' :: c0 :: (mid ++ '|' :: rest)) = ['0', '0', '1'] := by
    rw [List.takeWhile_cons, List.takeWhile_cons, List.takeWhile_cons,
      List.takeWhile_cons, hc0d]
    rfl
  have hdw : List.dropWhile Char.isDigit
      ('0' :: '0' :: '1' :: c0 :: (mid ++ '|' :: rest)) =
      c0 :: (mid ++ '|' :: rest) := by
    rw [List.dropWhile_cons, List.dropWhile_cons, List.dropWhile_cons,
      List.dropWhile_cons, hc0d]
    rfl
  have hmd : matchDigits ('0' :: '0' :: '1' :: c0 :: (mid ++ '|' :: rest)) =
      some (['0', '0', '1'], c0 :: (mid ++ '|' :: rest)) := by
    unfold matchDigits
    rw [htk, hdw]
    rfl
  have hid : matchRuleId
      ('R' :: '_' :: '0' :: '0' :: '1' :: c0 :: (mid ++ '|' :: rest)) =
      some (['0', '0', '1'], c0 :: (mid ++ '|' :: rest)) := by
    unfold matchRuleId
    rw [show chCI 'R' ('R' :: '_' :: '0' :: '0' :: '1' :: c0 :: (mid ++ '|' :: rest)) =
      some ('_' :: '0' :: '0' :: '1' :: c0 :: (mid ++ '|' :: rest)) from rfl]
    dsimp only
    rw [show optChIn ['_', '-'] ('_' :: '0' :: '0' :: '1' :: c0 :: (mid ++ '|' :: rest)) =
      '0' :: '0' :: '1' :: c0 :: (mid ++ '|' :: rest) from rfl]
    rw [hmd]
    dsimp only
    rw [hc0l]
    rfl
  unfold matchRuleCell
  rw [show expectCh '|' ('|' :: ' ' :: 'R' :: '_' :: '0' :: '0' :: '1' :: c0 ::
    (mid ++ '|' :: rest)) = some (' ' :: 'R' :: '_' :: '0' :: '0' :: '1' :: c0 ::
    (mid ++ '|' :: rest)) from rfl]
  dsimp only
  rw [show optCh '*' (optCh '*' (List.dropWhile isJsWhitespace
    (' ' :: 'R' :: '_' :: '0' :: '0' :: '1' :: c0 :: (mid ++ '|' :: rest)))) =
    'R' :: '_' :: '0' :: '0' :: '1' :: c0 :: (mid ++ '|' :: rest) from rfl]
  rw [hid]
  dsimp only
  rw [show (c0 :: (mid ++ '|' :: rest)) = ((c0 :: mid) ++ '|' :: rest) from rfl]
  rw [drop_to_pipe (c0 :: mid) rest hnp]
  rw [show expectCh '|' ('|' :: rest) = some rest from rfl]

lemma dropWhile_append_notall {p : Char → Bool} (xs ys : List Char)
    (hys : ys.dropWhile p = ys) :
    (xs ++ ys).dropWhile p = xs.dropWhile p ++ ys := by
  induction xs with
  | nil =>
    rw [List.nil_append, hys]
    rfl
  | cons x xs2 ih =>
    rw [List.cons_append, List.dropWhile_cons, List.dropWhile_cons]
    by_cases hx : p x = true
    · rw [hx]
      simp only [if_true]
      exact ih
    · rw [Bool.not_eq_true] at hx
      rw [hx]
      simp only [Bool.false_eq_true, if_false]
      rw [List.cons_append]

lemma inlineLazy_skip (zs : List Char) (hz : ∀ c ∈ zs, c ≠ ':' ∧ c ≠ '*')
    (rest : List Char) : inlineLazy (zs ++ rest) = inlineLazy rest := by
  induction zs with
  | nil => rfl
  | cons z zs2 ih =>
    rw [List.cons_append]
    simp only [inlineLazy]
    rw [if_neg (hz z (List.mem_cons_self z zs2)).1,
        if_pos (hz z (List.mem_cons_self z zs2)).2]
    exact ih (fun c hc => hz c (List.mem_cons_of_mem z hc))

lemma tryInline_inlineShape (zs : List Char) (hz : ∀ c ∈ zs, c ≠ ':' ∧ c ≠ '*') :
    tryInline ('*' :: '*' :: 'R' :: '_' :: '0' :: '0' :: '1' :: ' ' :: '-' :: ' ' ::
      (zs ++ [':', ' ', 'P', 'A', 'S', 'S', '*', '*'])) =
      some ((['0', '0', '1'], "PASS".data), []) := by
  have h1 : List.dropWhile isJsWhitespace
      (zs ++ [':', ' ', 'P', 'A', 'S', 'S', '*', '*']) =
      List.dropWhile isJsWhitespace zs ++ [':', ' ', 'P', 'A', 'S', 'S', '*', '*'] :=
    dropWhile_append_notall _ _ rfl
  have h2 : inlineLazy (List.dropWhile isJsWhitespace zs ++
      [':', ' ', 'P', 'A', 'S', 'S', '*', '*']) = some ("PASS".data, []) := by
    rw [inlineLazy_skip _ (fun c hc => hz c ((List.dropWhile_sublist _).subset hc))]
    rfl
  unfold tryInline
  rw [show expectCh '*' ('*' :: '*' :: 'R' :: '_' :: '0' :: '0' :: '1' :: ' ' :: '-' ::
    ' ' :: (zs ++ [':', ' ', 'P', 'A', 'S', 'S', '*', '*'])) =
    some ('*' :: 'R' :: '_' :: '0' :: '0' :: '1' :: ' ' :: '-' :: ' ' ::
      (zs ++ [':', ' ', 'P', 'A', 'S', 'S', '*', '*'])) from rfl]
  dsimp only
  rw [show expectCh '*' ('*' :: 'R' :: '_' :: '0' :: '0' :: '1' :: ' ' :: '-' :: ' ' ::
    (zs ++ [':', ' ', 'P', 'A', 'S', 'S', '*', '*'])) =
    some ('R' :: '_' :: '0' :: '0' :: '1' :: ' ' :: '-' :: ' ' ::
      (zs ++ [':', ' ', 'P', 'A', 'S', 'S', '*', '*'])) from rfl]
  dsimp only
  rw [show matchRuleId ('R' :: '_' :: '0' :: '0' :: '1' :: ' ' :: '-' :: ' ' ::
    (zs ++ [':', ' ', 'P', 'A', 'S', 'S', '*', '*'])) =
    some (['0', '0', '1'], ' ' :: '-' :: ' ' ::
      (zs ++ [':', ' ', 'P', 'A', 'S', 'S', '*', '*'])) from rfl]
  dsimp only
  rw [show expectIn ['-', '–', '—', ':'] (List.dropWhile isJsWhitespace
    (' ' :: '-' :: ' ' :: (zs ++ [':', ' ', 'P', 'A', 'S', 'S', '*', '*']))) =
    some (' ' :: (zs ++ [':', ' ', 'P', 'A', 'S', 'S', '*', '*'])) from rfl]
  dsimp only
  rw [show List.dropWhile isJsWhitespace
    (' ' :: (zs ++ [':', ' ', 'P', 'A', 'S', 'S', '*', '*'])) =
    List.dropWhile isJsWhitespace (zs ++ [':', ' ', 'P', 'A', 'S', 'S', '*', '*'])
    from rfl]
  rw [h1, h2]

/-- The letters-and-space alphabet the universal C6 documents draw their free
description and evidence text from. -/
def fillerChars : List Char :=
  ['a', 'b', 'c', 'd', 'e', 'f', 'g', 'h', 'i', 'j', 'k', 'l', 'm', 'n', 'o',
   'p', 'q', 'r', 's', 't', 'u', 'v', 'w', 'x', 'y', 'z',
   'A', 'B', 'C', 'D', 'E', 'F', 'G', 'H', 'I', 'J', 'K', 'L', 'M', 'N', 'O',
   'P', 'Q', 'R', 'S', 'T', 'U', 'V', 'W', 'X', 'Y', 'Z', ' ']

lemma fillerChar_facts : ∀ c ∈ fillerChars,
    c.isDigit = false ∧ c ≠ '|' ∧ c ≠ '*' ∧ c ≠ ':' := by decide

/-- Format 1 document: a pipe-table row with bracketed status. -/
def bracketDoc (d e : String) : String :=
  "| R_001 (" ++ d ++ ") | [PASS] | " ++ e ++ " |"

/-- Format 2 document: a pipe-table row with a leading status emoji. -/
def emojiDoc (d e : String) : String :=
  "| R_001: " ++ d ++ " | ✅ PASS | " ++ e ++ " |"

/-- Format 3 document: the inline bold form. -/
def inlineDoc (d : String) : String :=
  "**R_001 - " ++ d ++ ": PASS**"

/-- A document in which all three patterns speak about R_001 (pattern 1 says
FAIL, pattern 2 says PASS) and pattern 3 adds R_002. -/
def comboDoc : String :=
  "| R_001 (x) | [FAIL] | e |\n| R_001: x | ✅ PASS | e |\n**R_002 - y: PASS**"

lemma bracketDoc_data (d e : String) :
    (bracketDoc d e).data = '|' :: ' ' :: 'R' :: '_' :: '0' :: '0' :: '1' :: ' ' ::
      (('(' :: d.data ++ [')', ' ']) ++ '|' ::
        (' ' :: '[' :: 'P' :: 'A' :: 'S' :: 'S' :: ']' :: ' ' :: '|' :: ' ' ::
          (e.data ++ [' ', '|']))) := by
  unfold bracketDoc
  rw [String.data_append, String.data_append, String.data_append,
    String.data_append]
  rw [show ("| R_001 (" : String).data =
    ['|', ' ', 'R', '_', '0', '0', '1', ' ', '('] from rfl]
  rw [show (") | [PASS] | " : String).data =
    [')', ' ', '|', ' ', '[', 'P', 'A', 'S', 'S', ']', ' ', '|', ' '] from rfl]
  rw [show (" |" : String).data = [' ', '|'] from rfl]
  simp

lemma emojiDoc_data (d e : String) :
    (emojiDoc d e).data = '|' :: ' ' :: 'R' :: '_' :: '0' :: '0' :: '1' :: ':' ::
      ((' ' :: d.data ++ [' ']) ++ '|' ::
        (' ' :: '✅' :: ' ' :: 'P' :: 'A' :: 'S' :: 'S' :: ' ' :: '|' :: ' ' ::
          (e.data ++ [' ', '|']))) := by
  unfold emojiDoc
  rw [String.data_append, String.data_append, String.data_append,
    String.data_append]
  rw [show ("| R_001: " : String).data =
    ['|', ' ', 'R', '_', '0', '0', '1', ':', ' '] from rfl]
  rw [show (" | ✅ PASS | " : String).data =
    [' ', '|', ' ', '✅', ' ', 'P', 'A', 'S', 'S', ' ', '|', ' '] from rfl]
  rw [show (" |" : String).data = [' ', '|'] from rfl]
  simp

lemma inlineDoc_data (d : String) :
    (inlineDoc d).data = '*' :: '*' :: 'R' :: '_' :: '0' :: '0' :: '1' :: ' ' ::
      '-' :: ' ' :: (d.data ++ [':', ' ', 'P', 'A', 'S', 'S', '*', '*']) := by
  unfold inlineDoc
  rw [String.data_append, String.data_append]
  rw [show ("**R_001 - " : String).data =
    ['*', '*', 'R', '_', '0', '0', '1', ' ', '-', ' '] from rfl]
  rw [show (": PASS**" : String).data =
    [':', ' ', 'P', 'A', 'S', 'S', '*', '*'] from rfl]
  simp

lemma midPipeFree (a b : Char) (tail : List Char) (ds : List Char)
    (ha : a ≠ '|') (hb : b ≠ '|') (htail : ∀ c ∈ tail, c ≠ '|')
    (hd : ∀ c ∈ ds, c ∈ fillerChars) :
    ∀ c ∈ a :: (b :: ds ++ tail), c ≠ '|' := by
  intro c hc
  rcases List.mem_cons.mp hc with rfl | hc
  · exact ha
  · rcases List.mem_cons.mp hc with rfl | hc
    · exact hb
    · rcases List.mem_append.mp hc with hc | hc
      · exact (fillerChar_facts c (hd c hc)).2.1
      · exact htail c hc

lemma tryBracket_bracketDoc (d e : String)
    (hd : ∀ c ∈ d.data, c ∈ fillerChars) :
    tryBracket ((bracketDoc d e).data) =
      some ((['0', '0', '1'], "PASS".data), ' ' :: (e.data ++ [' ', '|'])) := by
  rw [bracketDoc_data]
  unfold tryBracket
  rw [matchRuleCell_generic ' ' ('(' :: d.data ++ [')', ' ']) _ (by decide)
    (by decide) (midPipeFree ' ' '(' [')', ' '] d.data (by decide) (by decide)
      (by decide) hd)]
  rfl

lemma tryEmoji_bracketDoc_full (d e : String)
    (hd : ∀ c ∈ d.data, c ∈ fillerChars) :
    tryEmoji ((bracketDoc d e).data) = none := by
  rw [bracketDoc_data]
  unfold tryEmoji
  rw [matchRuleCell_generic ' ' ('(' :: d.data ++ [')', ' ']) _ (by decide)
    (by decide) (midPipeFree ' ' '(' [')', ' '] d.data (by decide) (by decide)
      (by decide) hd)]
  rfl

lemma tryBracket_emojiDoc_full (d e : String)
    (hd : ∀ c ∈ d.data, c ∈ fillerChars) :
    tryBracket ((emojiDoc d e).data) = none := by
  rw [emojiDoc_data]
  unfold tryBracket
  rw [matchRuleCell_generic ':' (' ' :: d.data ++ [' ']) _ (by decide)
    (by decide) (midPipeFree ':' ' ' [' '] d.data (by decide) (by decide)
      (by decide) hd)]
  rfl

lemma tryEmoji_emojiDoc (d e : String)
    (hd : ∀ c ∈ d.data, c ∈ fillerChars) :
    tryEmoji ((emojiDoc d e).data) =
      some ((['0', '0', '1'], "PASS".data), ' ' :: (e.data ++ [' ', '|'])) := by
  rw [emojiDoc_data]
  unfold tryEmoji
  rw [matchRuleCell_generic ':' (' ' :: d.data ++ [' ']) _ (by decide)
    (by decide) (midPipeFree ':' ' ' [' '] d.data (by decide) (by decide)
      (by decide) hd)]
  rfl

lemma tryInline_inlineDoc (d : String) (hd : ∀ c ∈ d.data, c ∈ fillerChars) :
    tryInline ((inlineDoc d).data) = some ((['0', '0', '1'], "PASS".data), []) := by
  rw [inlineDoc_data]
  exact tryInline_inlineShape d.data (fun c hc =>
    ⟨(fillerChar_facts c (hd c hc)).2.2.2, (fillerChar_facts c (hd c hc)).2.2.1⟩)
-- ── C6 kit, chunk 3 ──

lemma fillerSeg_prop (P : Char → Prop) (pre ds tail : List Char)
    (hpre : ∀ c ∈ pre, P c) (htail : ∀ c ∈ tail, P c)
    (hfil : ∀ c ∈ fillerChars, P c) (hd : ∀ c ∈ ds, c ∈ fillerChars) :
    ∀ c ∈ pre ++ (ds ++ tail), P c := by
  intro c hc
  rcases List.mem_append.mp hc with hc | hc
  · exact hpre c hc
  · rcases List.mem_append.mp hc with hc | hc
    · exact hfil c (hd c hc)
    · exact htail c hc

lemma bracketDoc_data4 (d e : String) :
    (bracketDoc d e).data = '|' ::
      (([' ', 'R', '_', '0', '0', '1', ' ', '('] ++ (d.data ++ [')', ' '])) ++ '|' ::
        ([' ', '[', 'P', 'A', 'S', 'S', ']', ' '] ++ '|' ::
          (([' '] ++ (e.data ++ [' '])) ++ ['|']))) := by
  rw [bracketDoc_data]
  simp

lemma emojiDoc_data4 (d e : String) :
    (emojiDoc d e).data = '|' ::
      (([' ', 'R', '_', '0', '0', '1', ':', ' '] ++ (d.data ++ [' '])) ++ '|' ::
        ([' ', '✅', ' ', 'P', 'A', 'S', 'S', ' '] ++ '|' ::
          (([' '] ++ (e.data ++ [' '])) ++ ['|']))) := by
  rw [emojiDoc_data]
  simp

lemma digitFree_tableTail (pre : List Char) (e : String)
    (hpre : ∀ x ∈ pre, x.isDigit = false)
    (he : ∀ x ∈ e.data, x ∈ fillerChars) :
    ∀ c ∈ pre ++ '|' :: (([' '] ++ (e.data ++ [' '])) ++ ['|']),
      c.isDigit = false := by
  intro c hc
  rcases List.mem_append.mp hc with hc | hc
  · exact hpre c hc
  · rcases List.mem_cons.mp hc with rfl | hc
    · decide
    · rcases List.mem_append.mp hc with hc | hc
      · exact fillerSeg_prop (fun x => x.isDigit = false) _ _ _ (by decide)
          (by decide) (fun x hx => (fillerChar_facts x hx).1) he c hc
      · exact (by decide : ∀ x ∈ (['|'] : List Char), x.isDigit = false) c hc

lemma digitFree_lastSeg (e : String) (he : ∀ x ∈ e.data, x ∈ fillerChars) :
    ∀ c ∈ ([' '] ++ (e.data ++ [' '])) ++ ['|'], c.isDigit = false := by
  intro c hc
  rcases List.mem_append.mp hc with hc | hc
  · exact fillerSeg_prop (fun x => x.isDigit = false) _ _ _ (by decide)
      (by decide) (fun x hx => (fillerChar_facts x hx).1) he c hc
  · exact (by decide : ∀ x ∈ (['|'] : List Char), x.isDigit = false) c hc

lemma tryEmoji_bracketDoc_suffix (d e : String)
    (hd : ∀ c ∈ d.data, c ∈ fillerChars) (he : ∀ c ∈ e.data, c ∈ fillerChars) :
    ∀ t, t <:+ (bracketDoc d e).data → tryEmoji t = none := by
  intro t ht
  rcases suffix_head_mem ht with rfl | ⟨c, t2, rfl, hc⟩
  · rfl
  · by_cases hp : c = '|'
    · subst hp
      rw [bracketDoc_data4 d e] at ht
      rcases pipe_suffix_four _ _ _
        (fun hmem => fillerSeg_prop (fun x => x ≠ '|') _ _ _ (by decide)
          (by decide) (fun x hx => (fillerChar_facts x hx).2.1) hd '|' hmem rfl)
        (by decide)
        (fun hmem => fillerSeg_prop (fun x => x ≠ '|') _ _ _ (by decide)
          (by decide) (fun x hx => (fillerChar_facts x hx).2.1) he '|' hmem rfl)
        t2 ht with h | h | h | h
      · rw [h, ← bracketDoc_data4 d e]
        exact tryEmoji_bracketDoc_full d e hd
      · rw [h]
        exact tryEmoji_no_digits _ (digitFree_tableTail _ e (by decide) he)
      · rw [h]
        exact tryEmoji_no_digits _ (digitFree_lastSeg e he)
      · rw [h]
        exact tryEmoji_no_digits [] (fun x hx => absurd hx (List.not_mem_nil x))
    · exact tryEmoji_head_fail hp

lemma tryBracket_emojiDoc_suffix (d e : String)
    (hd : ∀ c ∈ d.data, c ∈ fillerChars) (he : ∀ c ∈ e.data, c ∈ fillerChars) :
    ∀ t, t <:+ (emojiDoc d e).data → tryBracket t = none := by
  intro t ht
  rcases suffix_head_mem ht with rfl | ⟨c, t2, rfl, hc⟩
  · rfl
  · by_cases hp : c = '|'
    · subst hp
      rw [emojiDoc_data4 d e] at ht
      rcases pipe_suffix_four _ _ _
        (fun hmem => fillerSeg_prop (fun x => x ≠ '|') _ _ _ (by decide)
          (by decide) (fun x hx => (fillerChar_facts x hx).2.1) hd '|' hmem rfl)
        (by decide)
        (fun hmem => fillerSeg_prop (fun x => x ≠ '|') _ _ _ (by decide)
          (by decide) (fun x hx => (fillerChar_facts x hx).2.1) he '|' hmem rfl)
        t2 ht with h | h | h | h
      · rw [h, ← emojiDoc_data4 d e]
        exact tryBracket_emojiDoc_full d e hd
      · rw [h]
        exact tryBracket_no_digits _ (digitFree_tableTail _ e (by decide) he)
      · rw [h]
        exact tryBracket_no_digits _ (digitFree_lastSeg e he)
      · rw [h]
        exact tryBracket_no_digits [] (fun x hx => absurd hx (List.not_mem_nil x))
    · exact tryBracket_head_fail hp

lemma star_notin_bracketDoc (d e : String)
    (hd : ∀ c ∈ d.data, c ∈ fillerChars) (he : ∀ c ∈ e.data, c ∈ fillerChars) :
    ∀ c ∈ (bracketDoc d e).data, c ≠ '*' := by
  intro c hc
  rw [bracketDoc_data4 d e] at hc
  rcases List.mem_cons.mp hc with rfl | hc
  · decide
  · rcases List.mem_append.mp hc with hc | hc
    · exact fillerSeg_prop (fun x => x ≠ '*') _ _ _ (by decide) (by decide)
        (fun x hx => (fillerChar_facts x hx).2.2.1) hd c hc
    · rcases List.mem_cons.mp hc with rfl | hc
      · decide
      · rcases List.mem_append.mp hc with hc | hc
        · exact (by decide :
            ∀ x ∈ ([' ', '[', 'P', 'A', 'S', 'S', ']', ' '] : List Char),
              x ≠ '*') c hc
        · rcases List.mem_cons.mp hc with rfl | hc
          · decide
          · rcases List.mem_append.mp hc with hc | hc
            · exact fillerSeg_prop (fun x => x ≠ '*') _ _ _ (by decide)
                (by decide) (fun x hx => (fillerChar_facts x hx).2.2.1) he c hc
            · exact (by decide : ∀ x ∈ (['|'] : List Char), x ≠ '*') c hc

lemma star_notin_emojiDoc (d e : String)
    (hd : ∀ c ∈ d.data, c ∈ fillerChars) (he : ∀ c ∈ e.data, c ∈ fillerChars) :
    ∀ c ∈ (emojiDoc d e).data, c ≠ '*' := by
  intro c hc
  rw [emojiDoc_data4 d e] at hc
  rcases List.mem_cons.mp hc with rfl | hc
  · decide
  · rcases List.mem_append.mp hc with hc | hc
    · exact fillerSeg_prop (fun x => x ≠ '*') _ _ _ (by decide) (by decide)
        (fun x hx => (fillerChar_facts x hx).2.2.1) hd c hc
    · rcases List.mem_cons.mp hc with rfl | hc
      · decide
      · rcases List.mem_append.mp hc with hc | hc
        · exact (by decide :
            ∀ x ∈ ([' ', '✅', ' ', 'P', 'A', 'S', 'S', ' '] : List Char),
              x ≠ '*') c hc
        · rcases List.mem_cons.mp hc with rfl | hc
          · decide
          · rcases List.mem_append.mp hc with hc | hc
            · exact fillerSeg_prop (fun x => x ≠ '*') _ _ _ (by decide)
                (by decide) (fun x hx => (fillerChar_facts x hx).2.2.1) he c hc
            · exact (by decide : ∀ x ∈ (['|'] : List Char), x ≠ '*') c hc

lemma pipe_notin_inlineDoc (d : String) (hd : ∀ c ∈ d.data, c ∈ fillerChars) :
    ∀ c ∈ (inlineDoc d).data, c ≠ '|' := by
  intro c hc
  rw [inlineDoc_data d] at hc
  rw [show ('*' :: '*' :: 'R' :: '_' :: '0' :: '0' :: '1' :: ' ' :: '-' :: ' ' ::
    (d.data ++ [':', ' ', 'P', 'A', 'S', 'S', '*', '*'])) =
    ['*', '*', 'R', '_', '0', '0', '1', ' ', '-', ' '] ++
      (d.data ++ [':', ' ', 'P', 'A', 'S', 'S', '*', '*']) from rfl] at hc
  exact fillerSeg_prop (fun x => x ≠ '|') _ _ _ (by decide) (by decide)
    (fun x hx => (fillerChar_facts x hx).2.1) hd c hc

lemma tryInline_table_suffix (s : List Char) (hs : ∀ c ∈ s, c ≠ '*') :
    ∀ t, t <:+ s → tryInline t = none := by
  intro t ht
  rcases suffix_head_mem ht with rfl | ⟨c, t2, rfl, hc⟩
  · rfl
  · exact tryInline_head_fail (hs c hc)

lemma tryBracket_nopipe_suffix (s : List Char) (hs : ∀ c ∈ s, c ≠ '|') :
    ∀ t, t <:+ s → tryBracket t = none := by
  intro t ht
  rcases suffix_head_mem ht with rfl | ⟨c, t2, rfl, hc⟩
  · rfl
  · exact tryBracket_head_fail (hs c hc)

lemma tryEmoji_nopipe_suffix (s : List Char) (hs : ∀ c ∈ s, c ≠ '|') :
    ∀ t, t <:+ s → tryEmoji t = none := by
  intro t ht
  rcases suffix_head_mem ht with rfl | ⟨c, t2, rfl, hc⟩
  · rfl
  · exact tryEmoji_head_fail (hs c hc)

lemma scanMatches_cons_match
    (pat : List Char → Option ((List Char × List Char) × List Char))
    (c : Char) (cs : List Char) (cap : List Char × List Char) (rest : List Char)
    (h : pat (c :: cs) = some (cap, rest))
    (hrest : ∀ t, t <:+ rest → pat t = none) :
    scanMatches pat (c :: cs) = [cap] := by
  unfold scanMatches
  rw [List.length_cons]
  unfold scanAux
  rw [h]
  dsimp only
  rw [scanAux_eq_nil pat cs.length rest hrest]

lemma scanMatches_nil_of_fail
    (pat : List Char → Option ((List Char × List Char) × List Char))
    (s : List Char) (h : ∀ t, t <:+ s → pat t = none) :
    scanMatches pat s = [] :=
  scanAux_eq_nil pat s.length s h

lemma rest_fail_bracket (e : String) (he : ∀ x ∈ e.data, x ∈ fillerChars) :
    ∀ t, t <:+ (' ' :: (e.data ++ [' ', '|'])) → tryBracket t = none := by
  intro t ht
  rw [show (' ' :: (e.data ++ [' ', '|'])) = ([' '] ++ (e.data ++ [' '])) ++ ['|']
    from by simp] at ht
  rcases suffix_head_mem ht with rfl | ⟨c, t2, rfl, hc⟩
  · rfl
  · by_cases hp : c = '|'
    · subst hp
      rw [pipe_suffix_one ([' '] ++ (e.data ++ [' ']))
        (fun hmem => fillerSeg_prop (fun x => x ≠ '|') _ _ _ (by decide)
          (by decide) (fun x hx => (fillerChar_facts x hx).2.1) he '|' hmem rfl)
        t2 ht]
      exact tryBracket_no_digits [] (fun x hx => absurd hx (List.not_mem_nil x))
    · exact tryBracket_head_fail hp

lemma rest_fail_emoji (e : String) (he : ∀ x ∈ e.data, x ∈ fillerChars) :
    ∀ t, t <:+ (' ' :: (e.data ++ [' ', '|'])) → tryEmoji t = none := by
  intro t ht
  rw [show (' ' :: (e.data ++ [' ', '|'])) = ([' '] ++ (e.data ++ [' '])) ++ ['|']
    from by simp] at ht
  rcases suffix_head_mem ht with rfl | ⟨c, t2, rfl, hc⟩
  · rfl
  · by_cases hp : c = '|'
    · subst hp
      rw [pipe_suffix_one ([' '] ++ (e.data ++ [' ']))
        (fun hmem => fillerSeg_prop (fun x => x ≠ '|') _ _ _ (by decide)
          (by decide) (fun x hx => (fillerChar_facts x hx).2.1) he '|' hmem rfl)
        t2 ht]
      exact tryEmoji_no_digits [] (fun x hx => absurd hx (List.not_mem_nil x))
    · exact tryEmoji_head_fail hp

lemma scan_bracket_bracketDoc (d e : String)
    (hd : ∀ c ∈ d.data, c ∈ fillerChars) (he : ∀ c ∈ e.data, c ∈ fillerChars) :
    scanMatches tryBracket ((bracketDoc d e).data) =
      [(['0', '0', '1'], "PASS".data)] := by
  rw [bracketDoc_data d e]
  refine scanMatches_cons_match tryBracket '|' _ ((['0', '0', '1'], "PASS".data))
    (' ' :: (e.data ++ [' ', '|'])) ?_ ?_
  · rw [← bracketDoc_data d e]
    exact tryBracket_bracketDoc d e hd
  · exact rest_fail_bracket e he

lemma scan_emoji_emojiDoc (d e : String)
    (hd : ∀ c ∈ d.data, c ∈ fillerChars) (he : ∀ c ∈ e.data, c ∈ fillerChars) :
    scanMatches tryEmoji ((emojiDoc d e).data) =
      [(['0', '0', '1'], "PASS".data)] := by
  rw [emojiDoc_data d e]
  refine scanMatches_cons_match tryEmoji '|' _ ((['0', '0', '1'], "PASS".data))
    (' ' :: (e.data ++ [' ', '|'])) ?_ ?_
  · rw [← emojiDoc_data d e]
    exact tryEmoji_emojiDoc d e hd
  · exact rest_fail_emoji e he

lemma scan_inline_inlineDoc (d : String) (hd : ∀ c ∈ d.data, c ∈ fillerChars) :
    scanMatches tryInline ((inlineDoc d).data) =
      [(['0', '0', '1'], "PASS".data)] := by
  rw [inlineDoc_data d]
  refine scanMatches_cons_match tryInline '*' _ ((['0', '0', '1'], "PASS".data))
    [] ?_ ?_
  · rw [← inlineDoc_data d]
    exact tryInline_inlineDoc d hd
  · intro t ht
    rw [List.suffix_nil.mp ht]
    rfl

lemma extract_bracketDoc (d e : String)
    (hd : ∀ c ∈ d.data, c ∈ fillerChars) (he : ∀ c ∈ e.data, c ∈ fillerChars) :
    extractSaulRules (bracketDoc d e) = [("R_001", "PASS")] := by
  unfold extractSaulRules
  rw [scan_bracket_bracketDoc d e hd he,
      scanMatches_nil_of_fail tryEmoji _ (tryEmoji_bracketDoc_suffix d e hd he),
      scanMatches_nil_of_fail tryInline _
        (tryInline_table_suffix _ (star_notin_bracketDoc d e hd he))]
  decide

lemma extract_emojiDoc (d e : String)
    (hd : ∀ c ∈ d.data, c ∈ fillerChars) (he : ∀ c ∈ e.data, c ∈ fillerChars) :
    extractSaulRules (emojiDoc d e) = [("R_001", "PASS")] := by
  unfold extractSaulRules
  rw [scanMatches_nil_of_fail tryBracket _ (tryBracket_emojiDoc_suffix d e hd he),
      scan_emoji_emojiDoc d e hd he,
      scanMatches_nil_of_fail tryInline _
        (tryInline_table_suffix _ (star_notin_emojiDoc d e hd he))]
  decide

lemma extract_inlineDoc (d : String) (hd : ∀ c ∈ d.data, c ∈ fillerChars) :
    extractSaulRules (inlineDoc d) = [("R_001", "PASS")] := by
  unfold extractSaulRules
  rw [scanMatches_nil_of_fail tryBracket _
        (tryBracket_nopipe_suffix _ (pipe_notin_inlineDoc d hd)),
      scanMatches_nil_of_fail tryEmoji _
        (tryEmoji_nopipe_suffix _ (pipe_notin_inlineDoc d hd)),
      scan_inline_inlineDoc d hd]
  decide

lemma extract_comboDoc :
    extractSaulRules comboDoc = [("R_001", "FAIL"), ("R_002", "PASS")] := by
  decide
/-- C6: for any three documents that encode rule R_001 with status PASS in the
three supported formats — the pipe-table row with bracketed status
`| R_001 (d) | [PASS] | e |`, the pipe-table row with a leading status emoji
`| R_001: d | ✅ PASS | e |`, and the inline bold form `**R_001 - d: PASS**`,
with the free description and evidence text drawn from letters and spaces —
`extractSaulRules` yields the identical normalized entry
`[("R_001", "PASS")]` for each document; and on a document where the bracket
pattern says FAIL for R_001 while the emoji pattern says PASS for it, the
first pattern's result wins (later patterns fill gaps only, here adding
R_002 from the inline pattern). -/
theorem extractSaulRules_three_formats (d e d2 e2 d3 : String)
    (hd : ∀ c ∈ d.data, c ∈ fillerChars) (he : ∀ c ∈ e.data, c ∈ fillerChars)
    (hd2 : ∀ c ∈ d2.data, c ∈ fillerChars)
    (he2 : ∀ c ∈ e2.data, c ∈ fillerChars)
    (hd3 : ∀ c ∈ d3.data, c ∈ fillerChars) :
    extractSaulRules (bracketDoc d e) = [("R_001", "PASS")] ∧
    extractSaulRules (emojiDoc d2 e2) = [("R_001", "PASS")] ∧
    extractSaulRules (inlineDoc d3) = [("R_001", "PASS")] ∧
    extractSaulRules comboDoc = [("R_001", "FAIL"), ("R_002", "PASS")] :=
  ⟨extract_bracketDoc d e hd he, extract_emojiDoc d2 e2 hd2 he2,
   extract_inlineDoc d3 hd3, extract_comboDoc⟩

/-- Witness for C6 at concrete description and evidence fillers. -/
theorem extractSaulRules_three_formats_witness :
    extractSaulRules (bracketDoc "desc" "evidence") = [("R_001", "PASS")] ∧
    extractSaulRules (emojiDoc "Growth rule" "ok") = [("R_001", "PASS")] ∧
    extractSaulRules (inlineDoc "Rule Name") = [("R_001", "PASS")] ∧
    extractSaulRules comboDoc = [("R_001", "FAIL"), ("R_002", "PASS")] :=
  extractSaulRules_three_formats "desc" "evidence" "Growth rule" "ok"
    "Rule Name" (by decide) (by decide) (by decide) (by decide) (by decide)

end StockDashboard
